import Mathlib

/-!
Shallow embedding of the Proteus validation-and-pipeline core
(src/core/models.py, src/core/registry.py, src/core/pipeline.py,
src/transforms/encoder.py, src/transforms/obfuscator.py,
src/exporters/json_exporter.py, src/exporters/txt_exporter.py,
src/modules/xss.py, src/modules/sqli.py, src/modules/cmd_injection.py),
together with theorems settling the frozen claims about it.

Conventions of the embedding:
  * Python exceptions become an @[inductive] error type `PyErr`; functions
    that can raise return `Except PyErr _`.
  * Python values that may fail an `isinstance(x, str)` check are modelled
    by `PyVal` (a string or some non-string object).
  * Character-class helpers (`str.strip`, `str.isalnum`, the regex word
    class) use Lean's ASCII character predicates; every string occurring in
    the repository and in the claims is ASCII, where the Python Unicode
    versions coincide with these.
-/

namespace Proteus

/-- Python truthiness of an optional string: `None` and `""` are falsy. -/
def optTruthy : Option String → Bool
  | none => false
  | some s => s ≠ ""

/-- Python `str.strip()` on a character list (leading and trailing whitespace
removed). -/
def pyStripL (l : List Char) : List Char :=
  ((l.dropWhile Char.isWhitespace).reverse.dropWhile Char.isWhitespace).reverse

/-- Python `str.strip()`. -/
def pyStrip (s : String) : String := String.mk (pyStripL s.toList)

/-- Python `str.lower()`. -/
def pyLower (s : String) : String := String.mk (s.toList.map Char.toLower)

/-- Python `(x or "").strip().lower()`, the normalisation applied to method,
mode and selector tokens throughout the source. -/
def pyNormToken (s : Option String) : String := pyLower (pyStrip (s.getD ""))

/-! ## UTF-8 and the three encoders (src/transforms/encoder.py) -/

/-- UTF-8 encoding of a single code point, as `payload.encode("utf-8")` does
per character. -/
def utf8Char (c : Char) : List Nat :=
  let n := c.toNat
  if n < 128 then [n]
  else if n < 2048 then [192 + n / 64, 128 + n % 64]
  else if n < 65536 then [224 + n / 4096, 128 + (n / 64) % 64, 128 + n % 64]
  else [240 + n / 262144, 128 + (n / 4096) % 64, 128 + (n / 64) % 64, 128 + n % 64]

/-- Python `payload.encode("utf-8")`. -/
def utf8Bytes (s : String) : List Nat := s.toList.flatMap utf8Char

/-- Lowercase hexadecimal digit, as `binascii.hexlify` emits. -/
def hexDigitLower (n : Nat) : Char :=
  match n with
  | 0 => '0' | 1 => '1' | 2 => '2' | 3 => '3' | 4 => '4'
  | 5 => '5' | 6 => '6' | 7 => '7' | 8 => '8' | 9 => '9'
  | 10 => 'a' | 11 => 'b' | 12 => 'c' | 13 => 'd' | 14 => 'e' | _ => 'f'

/-- Uppercase hexadecimal digit, as `urllib.parse.quote` emits. -/
def hexDigitUpper (n : Nat) : Char :=
  match n with
  | 0 => '0' | 1 => '1' | 2 => '2' | 3 => '3' | 4 => '4'
  | 5 => '5' | 6 => '6' | 7 => '7' | 8 => '8' | 9 => '9'
  | 10 => 'A' | 11 => 'B' | 12 => 'C' | 13 => 'D' | 14 => 'E' | _ => 'F'

/-- Two lowercase hex digits per byte, `binascii.hexlify` style. -/
def hexEncodeBytes (bs : List Nat) : List Char :=
  bs.flatMap (fun b => [hexDigitLower (b / 16), hexDigitLower (b % 16)])

/-- `_hex_encode` from src/transforms/encoder.py. -/
def _hex_encode (payload : String) : String :=
  String.mk (hexEncodeBytes (utf8Bytes payload))

/-- The base64 alphabet, indexed 0..63. -/
def b64Digit (n : Nat) : Char :=
  "ABCDEFGHIJKLMNOPQRSTUVWXYZabcdefghijklmnopqrstuvwxyz0123456789+/".toList.getD n 'A'

/-- Standard base64 of a byte list, with `=` padding, as
`base64.b64encode` produces. -/
def base64Chunks : List Nat → List Char
  | [] => []
  | [a] => [b64Digit (a / 4), b64Digit (a % 4 * 16), '=', '=']
  | [a, b] => [b64Digit (a / 4), b64Digit (a % 4 * 16 + b / 16), b64Digit (b % 16 * 4), '=']
  | a :: b :: c :: rest =>
      b64Digit (a / 4) :: b64Digit (a % 4 * 16 + b / 16) ::
        b64Digit (b % 16 * 4 + c / 64) :: b64Digit (c % 64) :: base64Chunks rest

/-- `_base64_encode` from src/transforms/encoder.py. -/
def _base64_encode (payload : String) : String :=
  String.mk (base64Chunks (utf8Bytes payload))

/-- Bytes `urllib.parse.quote` leaves literal when `safe=""`: ASCII
letters, digits, and `-`, `.`, `_`, `~`. -/
def isUrlAlwaysSafe (b : Nat) : Bool :=
  (65 ≤ b && b ≤ 90) || (97 ≤ b && b ≤ 122) || (48 ≤ b && b ≤ 57) ||
    b == 45 || b == 46 || b == 95 || b == 126

/-- `_url_encode` from src/transforms/encoder.py:
`urllib.parse.quote(payload, safe="")`. -/
def _url_encode (payload : String) : String :=
  String.mk ((utf8Bytes payload).flatMap (fun b =>
    if isUrlAlwaysSafe b then [Char.ofNat b]
    else ['%', hexDigitUpper (b / 16), hexDigitUpper (b % 16)]))

/-! ## Exception taxonomy -/

/-- A Python value checked with `isinstance(x, str)`: either an actual
string, or some other object. -/
inductive PyVal where
  | str (s : String)
  | nonStr
deriving DecidableEq

/-- The distinct `PayloadValidationError` causes raised by
`PayloadTemplate._validate` (src/core/models.py), plus the registry's
re-raise that names the module and offending index. -/
inductive VKind where
  | invalidModule (m : String)
  | emptyTitle
  | emptyPayload
  | invalidRisk (r : String)
  | disabledNotTrue
  | tagNotString
  | xssBadContext
  | xssDbNotNone
  | xssOsNotNone
  | sqliDbRequired
  | sqliBadDb (d : String)
  | sqliContextNotNone
  | sqliOsNotNone
  | cmdOsRequired
  | cmdBadOs (o : String)
  | cmdContextNotNone
  | cmdDbNotNone
  | naiveCreatedAt
  | fromModule (m : String) (i : Nat) (inner : VKind)
deriving DecidableEq

/-- The distinct `EncodingError` causes (src/transforms/encoder.py). -/
inductive EncKind where
  | notAString
  | emptyPayload
  | unsupportedMethod (m : String)
deriving DecidableEq

/-- The distinct `ObfuscationError` causes (src/transforms/obfuscator.py). -/
inductive ObfKind where
  | notAString
  | emptyPayload
  | unsupportedMode (m : String)
  | noMarker
deriving DecidableEq

/-- The distinct `RegistryError` causes (src/core/registry.py). The
module-not-found error carries the list of available modules that its
message interpolates. -/
inductive RegKind where
  | notFound (m : String) (available : List String)
  | requiresDb (m : String)
  | requiresOs (m : String)
  | xssRequiresContext
  | notAList (m : String)
  | itemNotTemplate (m : String) (i : Nat)
deriving DecidableEq

/-- The message variants of `PipelineError` (src/core/pipeline.py). -/
inductive PipeMsg where
  | generationFailed
  | encodingFailed (method : String)
  | obfuscationFailed (technique : String)
  | outputPathRequired
  | unsupportedFormat (f : String)
deriving DecidableEq

/-- The distinct `JSONExportError` causes (src/exporters/json_exporter.py). -/
inductive JExpKind where
  | itemNotTemplate (i : Nat)
  | itemNotDisabled (i : Nat)
  | metaReservedKeys (keys : List String)
  | writeFailed
deriving DecidableEq

/-- The distinct `TXTExportError` causes (src/exporters/txt_exporter.py). -/
inductive TExpKind where
  | itemNotTemplate (i : Nat)
  | itemNotDisabled (i : Nat)
  | writeFailed
deriving DecidableEq

/-- `ValueError` causes raised by the generator modules on an
unrecognised selector. -/
inductive ValKind where
  | invalidXssContext (c : String)
  | invalidDbType (d : String)
  | invalidOsType (o : String)
deriving DecidableEq

/-- The exception types that cross the boundaries the claims talk about.
`pipeline` carries its `__cause__` (`raise PipelineError(...) from e`);
`pipelineNoCause` is a `PipelineError` raised without a wrapped cause
(missing output path, unsupported export format). -/
inductive PyErr where
  | validation (k : VKind)
  | registry (k : RegKind)
  | valueError (k : ValKind)
  | encoding (k : EncKind)
  | obfuscation (k : ObfKind)
  | jsonExport (k : JExpKind)
  | txtExport (k : TExpKind)
  | pipeline (msg : PipeMsg) (cause : PyErr)
  | pipelineNoCause (msg : PipeMsg)
deriving DecidableEq

/-! ## encode_payload (src/transforms/encoder.py) -/

/-- `encode_payload(payload, method=method)`. Checks, in source order:
the payload is a string, is non-empty after `strip()`, and the normalised
method is one of url / base64 / hex; then applies the chosen encoder.
(The encoders themselves cannot fail on Lean `Char`s, which are valid
scalar values, so the final wrap-into-EncodingError branch is dead.) -/
def encode_payload (payload : PyVal) (method : Option String) : Except PyErr String :=
  match payload with
  | .nonStr => .error (.encoding .notAString)
  | .str p =>
    if pyStrip p = "" then .error (.encoding .emptyPayload)
    else
      let m := pyNormToken method
      if m = "url" then .ok (_url_encode p)
      else if m = "base64" then .ok (_base64_encode p)
      else if m = "hex" then .ok (_hex_encode p)
      else .error (.encoding (.unsupportedMethod (method.getD "")))

/-! ## The obfuscation guard and obfuscate_payload
(src/transforms/obfuscator.py) -/

/-- Word character of the regex `\b` boundary (`[A-Za-z0-9_]` on the ASCII
inputs this repository uses). -/
def isWordChar (c : Char) : Bool := c.isAlphanum || c = '_'

/-- Does the list begin with the word `TEMPLATE` (case-insensitive)
followed by a word boundary, as `\bTEMPLATE\b` requires at a position whose
left boundary already holds? -/
def startsWithTemplateWord (l : List Char) : Bool :=
  ((l.take 8).map Char.toLower == "template".toList) &&
    (match l.drop 8 with
     | [] => true
     | c :: _ => !isWordChar c)

/-- Is the head of the list `>`? -/
def headIsGt : List Char → Bool
  | '>' :: _ => true
  | _ => false

/-- Scanning after an opening `<<`: can `.*?>>` match, i.e. is there a
later `>>` with no newline in between (`.` does not match a newline)? -/
def bracketCloseFrom : List Char → Bool
  | [] => false
  | a :: rest => (a == '>' && headIsGt rest) || (a != '\n' && bracketCloseFrom rest)

/-- Does the list begin with a second `<` (completing `<<`) followed by a
closable bracket body? -/
def headStartsBracketBody : List Char → Bool
  | b :: rest => b == '<' && bracketCloseFrom rest
  | [] => false

/-- Does `<<.*?>>` match anywhere in the list (re.search semantics)? -/
def hasBracketMarker : List Char → Bool
  | [] => false
  | a :: rest => (a == '<' && headStartsBracketBody rest) || hasBracketMarker rest

/-- Does `\bTEMPLATE\b` (case-insensitive) match starting at any position,
where `prevIsWord` tells whether the character before the current position
is a word character? -/
def hasTemplateWordAux : Bool → List Char → Bool
  | _, [] => false
  | prevIsWord, c :: rest =>
      (!prevIsWord && startsWithTemplateWord (c :: rest)) ||
        hasTemplateWordAux (isWordChar c) rest

/-- `_TEMPLATE_MARKER_RE.search(payload)` is not None: the payload contains
a bracketed marker or the word TEMPLATE (case-insensitive). -/
def containsTemplateMarker (s : String) : Bool :=
  hasBracketMarker s.toList || hasTemplateWordAux false s.toList

/-- `_ensure_educational_template` from src/transforms/obfuscator.py. -/
def _ensure_educational_template (payload : String) : Except PyErr Unit :=
  if containsTemplateMarker payload then .ok () else .error (.obfuscation .noMarker)

/-- Character-level body of `_comments`: after every alphanumeric with
code point divisible by 7, insert the neutral marker. -/
def commentsChars (l : List Char) : List Char :=
  l.flatMap (fun ch =>
    if ch.isAlphanum && ch.toNat % 7 == 0 then ch :: "/*OBF*/".toList else [ch])

/-- `_comments` from src/transforms/obfuscator.py. -/
def _comments (payload : String) : Except PyErr String := do
  _ensure_educational_template payload
  pure (String.mk (commentsChars payload.toList))

/-- Character-level body of `_whitespace`: `payload.replace(" ", " \t ")`. -/
def whitespaceChars (l : List Char) : List Char :=
  l.flatMap (fun ch => if ch == ' ' then [' ', '\t', ' '] else [ch])

/-- `_whitespace` from src/transforms/obfuscator.py. -/
def _whitespace (payload : String) : Except PyErr String := do
  _ensure_educational_template payload
  pure (String.mk (whitespaceChars payload.toList))

/-- `_mixed` from src/transforms/obfuscator.py: guard, then
`_whitespace(_comments(payload))` (each of which re-runs the guard on its
own input). -/
def _mixed (payload : String) : Except PyErr String := do
  _ensure_educational_template payload
  let c ← _comments payload
  _whitespace c

/-- `obfuscate_payload(payload, mode=mode)`. Checks, in source order: the
payload is a string and non-empty (no strip here), the normalised mode is
supported; then applies the transformer, which enforces the educational
template marker guard. -/
def obfuscate_payload (payload : PyVal) (mode : Option String) : Except PyErr String :=
  match payload with
  | .nonStr => .error (.obfuscation .notAString)
  | .str p =>
    if p = "" then .error (.obfuscation .emptyPayload)
    else
      let m := pyNormToken mode
      if m = "comments" then _comments p
      else if m = "whitespace" then _whitespace p
      else if m = "mixed" then _mixed p
      else .error (.obfuscation (.unsupportedMode (mode.getD "")))

/-! ## The record model (src/core/models.py) -/

/-- The slice of a `datetime` that validation observes: whether `tzinfo`
is present. `datetime.now(timezone.utc)` gives `tzAware = true`. -/
structure PyDateTime where
  tzAware : Bool := true
deriving DecidableEq

def VALID_MODULES : List String := ["xss", "sqli", "cmd"]
def VALID_RISK_LEVELS : List String := ["low", "medium", "high"]
def VALID_DB_TYPES : List String := ["mysql", "postgres", "mssql"]
def VALID_OS_TYPES : List String := ["linux", "windows"]
def VALID_XSS_CONTEXTS : List String := ["html", "attr", "js"]

/-- The `PayloadTemplate` dataclass fields, with the source defaults.
`id` defaults to `""` here in place of a fresh uuid (no claim observes the
identifier) and `created_at` to a tz-aware stamp as
`datetime.now(timezone.utc)` yields. List fields are Lean values; the
object-identity (aliasing) behaviour of the Python lists is modelled
separately for the claim that concerns it. -/
structure PayloadTemplate where
  id : String := ""
  module : String := ""
  title : String := ""
  description : String := ""
  payload : String := ""
  context : Option String := none
  db_type : Option String := none
  os_type : Option String := none
  encoding_applied : List String := []
  obfuscation_applied : List String := []
  tags : List PyVal := []
  defensive_notes : String := ""
  risk_level : String := "low"
  disabled_by_default : Bool := true
  created_at : PyDateTime := {}
deriving DecidableEq

/-- Is this `PyVal` a string? (`isinstance(tag, str)`) -/
def PyVal.isStr : PyVal → Bool
  | .str _ => true
  | .nonStr => false

/-- Python `self.context in VALID_XSS_CONTEXTS` where `self.context` may be
`None` (then the membership test is false). -/
def optMem (o : Option String) (l : List String) : Bool :=
  match o with
  | some c => l.contains c
  | none => false

/-- The module-specific block of `PayloadTemplate._validate`: the
`if/elif` chain on `self.module` (reached only for the three valid
modules; any other value returns `.ok` just as the chain falls through). -/
def validateModuleRules (r : PayloadTemplate) : Except PyErr Unit :=
  if r.module = "xss" then
    if ¬ optMem r.context VALID_XSS_CONTEXTS then .error (.validation .xssBadContext)
    else if r.db_type ≠ none then .error (.validation .xssDbNotNone)
    else if r.os_type ≠ none then .error (.validation .xssOsNotNone)
    else .ok ()
  else if r.module = "sqli" then
    if ¬ optTruthy r.db_type then .error (.validation .sqliDbRequired)
    else if (r.db_type.getD "") ∉ VALID_DB_TYPES then
      .error (.validation (.sqliBadDb (r.db_type.getD "")))
    else if r.context ≠ none then .error (.validation .sqliContextNotNone)
    else if r.os_type ≠ none then .error (.validation .sqliOsNotNone)
    else .ok ()
  else if r.module = "cmd" then
    if ¬ optTruthy r.os_type then .error (.validation .cmdOsRequired)
    else if (r.os_type.getD "") ∉ VALID_OS_TYPES then
      .error (.validation (.cmdBadOs (r.os_type.getD "")))
    else if r.context ≠ none then .error (.validation .cmdContextNotNone)
    else if r.db_type ≠ none then .error (.validation .cmdDbNotNone)
    else .ok ()
  else .ok ()

/-- `PayloadTemplate._validate`, with the source's check order: module,
title, payload, risk level, the `disabled_by_default is not True` safety
check, tags, module-specific selector rules, timezone-awareness. -/
def _validate (r : PayloadTemplate) : Except PyErr Unit :=
  if r.module ∉ VALID_MODULES then .error (.validation (.invalidModule r.module))
  else if pyStrip r.title = "" then .error (.validation .emptyTitle)
  else if pyStrip r.payload = "" then .error (.validation .emptyPayload)
  else if r.risk_level ∉ VALID_RISK_LEVELS then .error (.validation (.invalidRisk r.risk_level))
  else if r.disabled_by_default ≠ true then .error (.validation .disabledNotTrue)
  else if ¬ r.tags.all PyVal.isStr then .error (.validation .tagNotString)
  else
    match validateModuleRules r with
    | .error e => .error e
    | .ok _ =>
      if ¬ r.created_at.tzAware then .error (.validation .naiveCreatedAt)
      else .ok ()

/-- Constructing a `PayloadTemplate(...)`: `__post_init__` runs
`_validate`, so construction yields the record or raises. -/
def construct (r : PayloadTemplate) : Except PyErr PayloadTemplate := do
  _validate r
  pure r

/-- The keyword arguments `clone_with_updates` may forward to
`dataclasses.replace`; `none` means the field keeps the base record's
value. -/
structure Updates where
  id : Option String := none
  module : Option String := none
  title : Option String := none
  description : Option String := none
  payload : Option String := none
  context : Option (Option String) := none
  db_type : Option (Option String) := none
  os_type : Option (Option String) := none
  encoding_applied : Option (List String) := none
  obfuscation_applied : Option (List String) := none
  tags : Option (List PyVal) := none
  defensive_notes : Option String := none
  risk_level : Option String := none
  disabled_by_default : Option Bool := none
  created_at : Option PyDateTime := none

/-- Field-wise overlay of `dataclasses.replace(self, **kwargs)`. -/
def applyUpdates (r : PayloadTemplate) (u : Updates) : PayloadTemplate :=
  { id := u.id.getD r.id
    module := u.module.getD r.module
    title := u.title.getD r.title
    description := u.description.getD r.description
    payload := u.payload.getD r.payload
    context := u.context.getD r.context
    db_type := u.db_type.getD r.db_type
    os_type := u.os_type.getD r.os_type
    encoding_applied := u.encoding_applied.getD r.encoding_applied
    obfuscation_applied := u.obfuscation_applied.getD r.obfuscation_applied
    tags := u.tags.getD r.tags
    defensive_notes := u.defensive_notes.getD r.defensive_notes
    risk_level := u.risk_level.getD r.risk_level
    disabled_by_default := u.disabled_by_default.getD r.disabled_by_default
    created_at := u.created_at.getD r.created_at }

/-- `PayloadTemplate.clone_with_updates`: `dataclasses.replace` re-runs
`__init__`, hence `_validate`, on the updated field set. -/
def clone_with_updates (r : PayloadTemplate) (u : Updates) : Except PyErr PayloadTemplate :=
  construct (applyUpdates r u)

/-- `PayloadTemplate.add_encoding`, as it affects the record it is called
on (the retroactive effect on records sharing the list object is modelled
in `RefModel`). -/
def add_encoding (r : PayloadTemplate) (encoding_name : String) : PayloadTemplate :=
  { r with encoding_applied := r.encoding_applied ++ [encoding_name] }

/-- `PayloadTemplate.add_obfuscation`, same conventions as
`add_encoding`. -/
def add_obfuscation (r : PayloadTemplate) (technique_name : String) : PayloadTemplate :=
  { r with obfuscation_applied := r.obfuscation_applied ++ [technique_name] }

/-! ## The module registry (src/core/registry.py)

Generators are treated as untrusted collaborators, so their return value
is modelled dynamically: it may fail to be a list, and each element may
fail to be a `PayloadTemplate`. -/

/-- An element of a generator's returned sequence. -/
inductive RegItem where
  | template (r : PayloadTemplate)
  | notTemplate
deriving DecidableEq

/-- A generator's return value: a list of elements, or some non-list. -/
inductive GenResult where
  | list (items : List RegItem)
  | notList
deriving DecidableEq

/-- `ModuleSpec` from src/core/registry.py. The generator receives
`(db_type, os_type, context)`; the registry passes exactly one of them. -/
structure ModuleSpec where
  name : String
  generator : Option String → Option String → Option String → Except PyErr GenResult
  requires_db : Bool := false
  requires_os : Bool := false

/-- A registry state: the `_registry` dict as an association list in
insertion order. -/
abbrev Registry := List (String × ModuleSpec)

namespace ModuleRegistry

/-- `ModuleRegistry.list_modules`: `sorted(self._registry.keys())`. -/
def list_modules (reg : Registry) : List String :=
  (reg.map Prod.fst).insertionSort (· ≤ ·)

/-- `ModuleRegistry.get_spec`: the module spec, or a `RegistryError`
listing the available modules. -/
def get_spec (reg : Registry) (module_name : String) : Except PyErr ModuleSpec :=
  match reg.lookup module_name with
  | none => .error (.registry (.notFound module_name (list_modules reg)))
  | some spec => .ok spec

/-- `ModuleRegistry.validate_selectors`: looks up the spec, then enforces
`requires_db`, `requires_os`, and the extra xss-requires-context rule, in
source order. Python falsiness of the selector (`not db_type`) counts both
`None` and `""` as missing. -/
def validate_selectors (reg : Registry) (module_name : String)
    (db_type os_type context : Option String) : Except PyErr Unit := do
  let spec ← get_spec reg module_name
  if spec.requires_db && !(optTruthy db_type) then
    throw (.registry (.requiresDb module_name))
  if spec.requires_os && !(optTruthy os_type) then
    throw (.registry (.requiresOs module_name))
  if module_name == "xss" && !(optTruthy context) then
    throw (.registry .xssRequiresContext)

/-- The re-validation loop of `ModuleRegistry.generate` over the
generator's items, starting at index `i`: the first element that is not a
`PayloadTemplate` raises a `RegistryError` naming the module and index;
the first element failing `_validate` re-raises the validation error
naming the module and index; otherwise the templates are returned. -/
def checkItems (module_name : String) : Nat → List RegItem → Except PyErr (List PayloadTemplate)
  | _, [] => .ok []
  | i, .notTemplate :: _ => .error (.registry (.itemNotTemplate module_name i))
  | i, .template r :: rest =>
    match _validate r with
    | .error (.validation k) => .error (.validation (.fromModule module_name i k))
    | .error e => .error e
    | .ok _ => (checkItems module_name (i + 1) rest).map (r :: ·)

/-- `ModuleRegistry.generate`: validate selectors, look up the spec,
invoke the generator with exactly the one selector its spec declares
relevant, reject a non-list result, and re-validate every element. -/
def generate (reg : Registry) (module_name : String)
    (db_type os_type context : Option String) : Except PyErr (List PayloadTemplate) := do
  validate_selectors reg module_name db_type os_type context
  let spec ← get_spec reg module_name
  let res ←
    if spec.requires_db then spec.generator db_type none none
    else if spec.requires_os then spec.generator none os_type none
    else spec.generator none none context
  match res with
  | .notList => throw (.registry (.notAList module_name))
  | .list items => checkItems module_name 0 items

end ModuleRegistry

/-! ## The xss generator module (src/modules/xss.py) -/

/-- `_normalize_context`: `None` stays `None`, a blank string becomes
`None`, a recognised context is lowercased, anything else raises a
`ValueError`. -/
def _normalize_context (context : Option String) : Except PyErr (Option String) :=
  match context with
  | none => .ok none
  | some s =>
    let c := pyNormToken (some s)
    if c = "" then .ok none
    else if c ∈ ["html", "attr", "js"] then .ok (some c)
    else .error (.valueError (.invalidXssContext s))

/-- Shared shape of the eight literal `PayloadTemplate(...)` calls in
src/modules/xss.py. -/
def xssTemplate (title description payload ctx defensive_notes risk_level : String)
    (tags : List String) : PayloadTemplate :=
  { module := "xss", title := title, description := description, payload := payload,
    context := some ctx, defensive_notes := defensive_notes, risk_level := risk_level,
    tags := tags.map PyVal.str }

/-- The two HTML-context xss templates. -/
def xssHtmlItems : List PayloadTemplate :=
  [ xssTemplate "Reflected XSS (HTML context) - Template"
      "Demonstrates reflected XSS risk when untrusted input is placed into the HTML body without proper contextual output encoding."
      "<<XSS_TEMPLATE: REFLECTED | CONTEXT=html | SINK=HTML_BODY>>"
      "html"
      "Education-only template (non-executing).\n- Root cause: reflecting user input into HTML without encoding.\n- Defenses: contextual output encoding (HTML), safe templating/auto-escaping, CSP.\n- WAFs may detect signatures, but correct output encoding is the core fix."
      "medium"
      ["reflected", "context:html", "education-only", "non-executing"],
    xssTemplate "Stored XSS (HTML context) - Template"
      "Demonstrates stored XSS concept: input is persisted and later rendered into HTML body."
      "<<XSS_TEMPLATE: STORED | CONTEXT=html | SOURCE=persisted_input | SINK=HTML_BODY>>"
      "html"
      "Education-only template (non-executing).\n- Stored XSS can affect many users because the payload is persisted.\n- Defenses: encode at render time, input normalization/validation, CSP.\n- Ensure consistent escaping across all render paths."
      "high"
      ["stored", "context:html", "education-only", "non-executing"] ]

/-- The three attribute-context xss templates. -/
def xssAttrItems : List PayloadTemplate :=
  [ xssTemplate "Reflected XSS (Attribute context) - Template"
      "Demonstrates attribute-context injection risk when input is placed into an HTML attribute value without proper attribute encoding/validation."
      "<<XSS_TEMPLATE: REFLECTED | CONTEXT=attr | SINK=ATTRIBUTE_VALUE>>"
      "attr"
      "Education-only template (non-executing).\n- Attribute context requires attribute-safe encoding (quotes/special chars).\n- For URL attributes (href/src), apply allow-list validation for schemes/protocols.\n- Avoid event-handler attributes entirely; prefer safe DOM APIs."
      "medium"
      ["reflected", "context:attr", "education-only", "non-executing"],
    xssTemplate "Stored XSS (Attribute context) - Template"
      "Demonstrates stored XSS concept where persisted input is later used inside an HTML attribute."
      "<<XSS_TEMPLATE: STORED | CONTEXT=attr | SOURCE=persisted_input | SINK=ATTRIBUTE_VALUE>>"
      "attr"
      "Education-only template (non-executing).\n- Stored attribute injection can be severe depending on sink type.\n- Defenses: strict allow-lists + attribute encoding; avoid dangerous attribute sinks.\n- Prefer framework auto-escaping and safe URL builders."
      "high"
      ["stored", "context:attr", "education-only", "non-executing"],
    xssTemplate "Filter Evasion Concepts (Attribute context) - Template"
      "Marker template for discussing why naive filters fail in attribute context (context switching, encoding differences) without providing operational exploit strings."
      "<<XSS_TEMPLATE: BYPASS_CONCEPTS | CONTEXT=attr | NOTE=descriptive_only>>"
      "attr"
      "Education-only template (non-executing).\n- Naive filters often match strings; robust defense is context-aware output encoding.\n- Use allow-lists for URL schemes and avoid inline event handlers.\n- CSP can reduce impact, but correct encoding is primary."
      "low"
      ["bypass-concepts", "context:attr", "education-only", "non-executing"] ]

/-- The three JavaScript-context xss templates. -/
def xssJsItems : List PayloadTemplate :=
  [ xssTemplate "Reflected XSS (JavaScript context) - Template"
      "Demonstrates risk when untrusted input is embedded into a JavaScript string/context without proper JS escaping."
      "<<XSS_TEMPLATE: REFLECTED | CONTEXT=js | SINK=JS_STRING>>"
      "js"
      "Education-only template (non-executing).\n- JS context needs JS-string escaping (different from HTML/attr).\n- Avoid string concatenation; prefer safe APIs and JSON encoding.\n- CSP helps, but correct contextual escaping is essential."
      "high"
      ["reflected", "context:js", "education-only", "non-executing"],
    xssTemplate "DOM-based XSS (JavaScript sink) - Template"
      "Demonstrates DOM XSS concept: untrusted data from browser sources is written to a risky sink."
      "<<XSS_TEMPLATE: DOM | CONTEXT=js | SOURCE=location | SINK=dom_write>>"
      "js"
      "Education-only template (non-executing).\n- DOM XSS occurs when client-side JS writes untrusted data into dangerous sinks.\n- Defenses: use textContent over innerHTML, sanitize with vetted libraries, CSP.\n- Identify sources (location, storage) and sinks (DOM writes) during testing."
      "high"
      ["dom", "context:js", "education-only", "non-executing"],
    xssTemplate "Encoding Demonstration (JavaScript context) - Template"
      "Non-executing marker used to demonstrate how encoding transforms representations (URL/Base64/Hex) in a safe way."
      "<<XSS_TEMPLATE: ENCODING_DEMO | CONTEXT=js | NOTE=representation_only>>"
      "js"
      "Education-only template (non-executing).\n- Encoding changes representation, not the underlying vulnerability.\n- Correct fix is contextual output encoding + safe coding patterns.\n- Use Proteus flags to observe how representations change safely."
      "low"
      ["encoding", "context:js", "education-only", "non-executing"] ]

/-- The item list `generate_payloads` (xss) builds for a normalised
context: each block is included when `ctx in (None, blockContext)`. -/
def xssItems (ctx : Option String) : List PayloadTemplate :=
  (if ctx = none ∨ ctx = some "html" then xssHtmlItems else []) ++
  (if ctx = none ∨ ctx = some "attr" then xssAttrItems else []) ++
  (if ctx = none ∨ ctx = some "js" then xssJsItems else [])

/-- The xss `generate_payloads`, in the registry's generator signature
(receives the context argument only). -/
def xssGeneratorFn (_db _os context : Option String) : Except PyErr GenResult := do
  let ctx ← _normalize_context context
  pure (.list ((xssItems ctx).map .template))

/-! ## The sqli generator module (src/modules/sqli.py) -/

/-- `_TemplateSpec`, shared by src/modules/sqli.py and
src/modules/cmd_injection.py. -/
structure TemplateSpec where
  key : String
  title : String
  risk : String
  tags : List String
  description : String
  defensive_notes : String

/-- `_normalize_db`: lowercase/strip, then the alias table
mysql/mariadb, postgres/postgresql, mssql/sqlserver/sql server. -/
def _normalize_db (db_type : Option String) : Except PyErr String :=
  let raw := pyNormToken db_type
  if raw = "mysql" ∨ raw = "mariadb" then .ok "mysql"
  else if raw = "postgres" ∨ raw = "postgresql" then .ok "postgres"
  else if raw = "mssql" ∨ raw = "sqlserver" ∨ raw = "sql server" then .ok "mssql"
  else .error (.valueError (.invalidDbType (db_type.getD "")))

/-- `_db_defense_highlights`. -/
def _db_defense_highlights (db : String) : String :=
  if db = "mysql" then
    "- MySQL/MariaDB: disable verbose errors in production.\n- Monitor slow query log and restrict SUPER/FILE privileges.\n"
  else if db = "postgres" then
    "- PostgreSQL: enforce least-privilege roles.\n- Avoid dynamic SQL inside functions.\n"
  else
    "- SQL Server: avoid string concatenation with EXEC().\n- Review stored procedures for dynamic SQL usage.\n"

/-- `_TEMPLATES` of src/modules/sqli.py. -/
def sqliTemplates : List TemplateSpec :=
  [ { key := "ERROR_BASED", title := "Error-Based SQLi", risk := "high",
      tags := ["error-based", "education-only", "non-executing"],
      description := "Concept: database error messages may leak query structure when input is concatenated into SQL statements.",
      defensive_notes := "- Root cause: dynamic SQL string construction.\n- Use parameterized queries / prepared statements.\n- Suppress detailed DB errors in production.\n" },
    { key := "UNION_BASED", title := "Union-Based SQLi", risk := "high",
      tags := ["union-based", "education-only", "non-executing"],
      description := "Concept: attacker-controlled input may alter SELECT queries to combine additional result sets.",
      defensive_notes := "- Use parameterized queries.\n- Apply least-privilege DB roles.\n- Avoid direct string interpolation in SQL.\n" },
    { key := "BLIND_BOOLEAN", title := "Blind SQLi (Boolean-Based)", risk := "medium",
      tags := ["blind", "boolean-based", "education-only", "non-executing"],
      description := "Concept: response differences reveal true/false evaluation even without visible errors.",
      defensive_notes := "- Enforce consistent responses.\n- Use parameterized queries.\n- Avoid logic branching on raw user input.\n" },
    { key := "BLIND_TIME", title := "Blind SQLi (Time-Based)", risk := "medium",
      tags := ["blind", "time-based", "education-only", "non-executing"],
      description := "Concept: response latency may indicate conditional execution.",
      defensive_notes := "- Set DB query time limits.\n- Monitor abnormal latency patterns.\n- Use parameterization everywhere.\n" },
    { key := "BYPASS_CONCEPTS", title := "Filter Evasion Concepts (Comments / Case)", risk := "low",
      tags := ["bypass-concepts", "education-only", "non-executing"],
      description := "Concept: naive keyword filters fail against case changes or token splitting.",
      defensive_notes := "- Do not rely on regex keyword filtering.\n- Use parameterized queries as primary defense.\n" } ]

/-- One sqli `PayloadTemplate(...)` built from a spec and the normalised
db type, mirroring the loop body of the sqli `generate_payloads`. -/
def sqliItem (db : String) (spec : TemplateSpec) : PayloadTemplate :=
  { module := "sqli"
    title := spec.title ++ " (" ++ db ++ ") - Template"
    description := spec.description
    payload := "<<SQLI_TEMPLATE: " ++ spec.key ++ " | DB=" ++ db ++ " | NON_EXECUTING>>"
    db_type := some db
    defensive_notes := "Education-only (non-executing).\n" ++ spec.defensive_notes ++
      _db_defense_highlights db ++ "- Integrate SAST/DAST and code review for query construction.\n"
    risk_level := spec.risk
    tags := (spec.tags ++ ["db:" ++ db]).map PyVal.str }

/-- The sqli `generate_payloads`, in the registry's generator signature
(receives the db_type argument only). -/
def sqliGeneratorFn (db_type _os _ctx : Option String) : Except PyErr GenResult := do
  let db ← _normalize_db db_type
  pure (.list ((sqliTemplates.map (sqliItem db)).map .template))

/-! ## The cmd generator module (src/modules/cmd_injection.py) -/

/-- `_normalize_os`: lowercase/strip, then the alias table with the linux
and windows buckets. -/
def _normalize_os (os_type : Option String) : Except PyErr String :=
  let raw := pyNormToken os_type
  if raw = "linux" ∨ raw = "unix" ∨ raw = "gnu/linux" ∨ raw = "bash" ∨ raw = "sh" then
    .ok "linux"
  else if raw = "windows" ∨ raw = "win" ∨ raw = "win32" ∨ raw = "cmd" ∨
      raw = "powershell" ∨ raw = "pwsh" then
    .ok "windows"
  else .error (.valueError (.invalidOsType (os_type.getD "")))

/-- `_os_defense_highlights`. -/
def _os_defense_highlights (os_type : String) : String :=
  if os_type = "linux" then
    "- Avoid shell=True patterns in process spawning.\n- Prefer exec-style APIs with argument arrays (argv).\n- Apply strict allow-lists for user-controlled parameters.\n"
  else
    "- Avoid passing untrusted input into cmd.exe or PowerShell.\n- Prefer structured APIs instead of dynamic command construction.\n- Restrict privileges and monitor spawned processes.\n"

/-- `_TEMPLATES` of src/modules/cmd_injection.py. -/
def cmdTemplates : List TemplateSpec :=
  [ { key := "BASIC_CONCEPT", title := "Command Injection (Basic Concept)", risk := "high",
      tags := ["cmd-injection", "basic-concept", "education-only", "non-executing"],
      description := "Concept: untrusted input influencing system command construction may alter execution flow.",
      defensive_notes := "- Root cause: concatenating user input into shell commands.\n- Primary defense: avoid shell invocation entirely.\n" },
    { key := "SEPARATOR_CONCEPT", title := "Command Separator Concept", risk := "high",
      tags := ["cmd-injection", "separator-concept", "education-only", "non-executing"],
      description := "Concept: shell parsing rules may interpret separators as command boundaries.",
      defensive_notes := "- Do not rely on character blacklists.\n- Use structured execution (argv arrays), not shell parsing.\n" },
    { key := "CHAINING_CONCEPT", title := "Command Chaining Concept", risk := "high",
      tags := ["cmd-injection", "chaining-concept", "education-only", "non-executing"],
      description := "Concept: dynamic command building may enable chained execution paths.",
      defensive_notes := "- Avoid dynamic command construction.\n- Enforce strict input validation.\n" },
    { key := "FILTER_EVASION_CONCEPTS", title := "Filter Evasion Concepts", risk := "medium",
      tags := ["cmd-injection", "bypass-concepts", "education-only", "non-executing"],
      description := "Concept: naive filtering may fail across encodings and shell behaviors.",
      defensive_notes := "- Architectural prevention > keyword filtering.\n- Add sandboxing and least privilege.\n" },
    { key := "OS_DETECTION_LOGIC", title := "OS Detection Logic Concept", risk := "low",
      tags := ["cmd-injection", "os-detection", "education-only", "non-executing"],
      description := "Concept: behavioral differences may reveal underlying OS type.",
      defensive_notes := "- Avoid exposing platform details.\n- Do not return raw command output.\n" } ]

/-- One cmd `PayloadTemplate(...)` built from a spec and the normalised
os type, mirroring the loop body of the cmd `generate_payloads`. -/
def cmdItem (os_norm : String) (spec : TemplateSpec) : PayloadTemplate :=
  { module := "cmd"
    title := spec.title ++ " (" ++ os_norm ++ ") - Template"
    description := spec.description
    payload := "<<CMD_TEMPLATE: " ++ spec.key ++ " | OS=" ++ os_norm ++ " | NON_EXECUTING>>"
    os_type := some os_norm
    defensive_notes := "Education-only (non-executing).\n" ++ spec.defensive_notes ++
      _os_defense_highlights os_norm ++
      "- Apply least privilege to service accounts.\n- Prefer SDK/library APIs over invoking shell utilities.\n"
    risk_level := spec.risk
    tags := (spec.tags ++ ["os:" ++ os_norm]).map PyVal.str }

/-- The cmd `generate_payloads`, in the registry's generator signature
(receives the os_type argument only). -/
def cmdGeneratorFn (_db os_type _ctx : Option String) : Except PyErr GenResult := do
  let os_norm ← _normalize_os os_type
  pure (.list ((cmdTemplates.map (cmdItem os_norm)).map .template))

/-- The registry `get_registry()` yields after `initialize_registry()`
imported the three modules, in import (insertion) order xss, sqli, cmd. -/
def PROTEUS_REGISTRY : Registry :=
  [ ("xss", { name := "xss", generator := xssGeneratorFn }),
    ("sqli", { name := "sqli", generator := sqliGeneratorFn, requires_db := true }),
    ("cmd", { name := "cmd", generator := cmdGeneratorFn, requires_os := true }) ]

/-! ## Exporters (src/exporters/json_exporter.py, src/exporters/txt_exporter.py)

The file system is modelled by the destination path's content plus the
exporter's temporary artifact. `_atomic_write_text` is the only operation
that touches either; a `WriteOutcome` injects the possible I/O failures of
its three steps (creating the temp file, writing it, renaming it into
place). The serialized document text is produced by a projection of the
record fields; no claim depends on the exact formatting, only on when the
write happens and what it replaces. -/

/-- Content of the destination path (`none` = absent) and of the
exporter's temporary file. -/
structure FS where
  dest : Option String := none
  tmp : Option String := none
deriving DecidableEq

/-- Failure injection for `_atomic_write_text`: succeed, fail to create
the temp file, fail mid-write, or fail the final rename. -/
inductive WriteOutcome where
  | ok
  | failMkstemp
  | failWrite
  | failReplace
deriving DecidableEq

/-- `_atomic_write_text` (identical in both exporters): write `content` to
a fresh temporary file in the destination directory, `os.replace` it onto
the destination, and on any failure remove the temporary file in the
`finally` block. Returns the resulting file state and whether it
succeeded. -/
def _atomic_write_text (fs : FS) (content : String) (o : WriteOutcome) : FS × Bool :=
  match o with
  | .ok => ({ dest := some content, tmp := none }, true)
  | .failMkstemp => (fs, false)
  | .failWrite => ({ fs with tmp := none }, false)
  | .failReplace => ({ fs with tmp := none }, false)

/-- An element of the sequence handed to an exporter: a
`PayloadTemplate`, or some other object (`isinstance` fails). -/
inductive ExportItem where
  | record (r : PayloadTemplate)
  | notRecord
deriving DecidableEq

/-- `_validate_items` of src/exporters/json_exporter.py, from index `i`:
reject the first non-`PayloadTemplate` element and the first element whose
`disabled_by_default` is not `True` (its third check, that `to_json_safe`
is callable, always holds for a `PayloadTemplate`). -/
def json_validate_items : Nat → List ExportItem → Except PyErr (List PayloadTemplate)
  | _, [] => .ok []
  | i, .notRecord :: _ => .error (.jsonExport (.itemNotTemplate i))
  | i, .record r :: rest =>
    if r.disabled_by_default ≠ true then .error (.jsonExport (.itemNotDisabled i))
    else (json_validate_items (i + 1) rest).map (r :: ·)

/-- `_validate_items` of src/exporters/txt_exporter.py (same two checks,
its own error type). -/
def txt_validate_items : Nat → List ExportItem → Except PyErr (List PayloadTemplate)
  | _, [] => .ok []
  | i, .notRecord :: _ => .error (.txtExport (.itemNotTemplate i))
  | i, .record r :: rest =>
    if r.disabled_by_default ≠ true then .error (.txtExport (.itemNotDisabled i))
    else (txt_validate_items (i + 1) rest).map (r :: ·)

/-- The JSON exporter's sort key: `(x.module, (x.title or "").lower())`. -/
def exportSortKey (r : PayloadTemplate) : String × String := (r.module, pyLower r.title)

/-- The TXT exporter's sort key:
`(getattr(x, "module", ""), _safe_str(getattr(x, "title", "")).lower())`. -/
def txtSortKey (r : PayloadTemplate) : String × String := (r.module, pyLower (pyStrip r.title))

/-- Render a `PyVal` as `str(x)` does for the tags (strings render as
themselves). -/
def pyValStr : PyVal → String
  | .str s => s
  | .nonStr => "object"

/-- `to_json_safe`, as the flat projection of every field that the JSON
document embeds; the concrete JSON punctuation is abstracted to a field
separator, which no claim observes. -/
def to_json_safe (r : PayloadTemplate) : String :=
  r.id ++ "|" ++ r.module ++ "|" ++ r.title ++ "|" ++ r.description ++ "|" ++ r.payload ++
    "|" ++ (r.context.getD "null") ++ "|" ++ (r.db_type.getD "null") ++ "|" ++
    (r.os_type.getD "null") ++ "|" ++ String.intercalate "," r.encoding_applied ++ "|" ++
    String.intercalate "," r.obfuscation_applied ++ "|" ++
    String.intercalate "," (r.tags.map pyValStr) ++ "|" ++ r.defensive_notes ++ "|" ++
    r.risk_level ++ "|" ++ (if r.disabled_by_default then "true" else "false")

/-- The wrapper JSON document (`include_wrapper=True`, the pipeline's
configuration): schema id, export timestamp, count, payload projections,
and the meta keys. -/
def jsonDocText (payloads : List String) (meta : Option (List String)) (now : String) : String :=
  "proteus.payloads.v1;" ++ now ++ ";" ++ toString payloads.length ++ ";" ++
    String.intercalate ";" payloads ++
    (match meta with
     | some keys => if keys ≠ [] then ";meta:" ++ String.intercalate "," keys else ""
     | none => "")

/-- The reserved top-level keys of the wrapper document. -/
def RESERVED_JSON_KEYS : List String := ["schema", "exported_at", "count", "payloads"]

/-- `export_json(items, output_path, pretty=True, include_wrapper=True,
meta=meta)`: validate every element, sort deterministically, project,
reject meta keys colliding with the wrapper's reserved keys, then write
atomically. Every failure leaves the file state it received, except a
write failure, which removes the temporary artifact; `meta` is the
caller's dict, modelled by its key list (`none` = `None`). -/
def export_json (items : List ExportItem) (meta : Option (List String)) (now : String)
    (fs : FS) (o : WriteOutcome) : FS × Except PyErr Unit :=
  match json_validate_items 0 items with
  | .error e => (fs, .error e)
  | .ok validated =>
    let sorted := validated.mergeSort (fun a b => decide (exportSortKey a ≤ exportSortKey b))
    let payloads := sorted.map to_json_safe
    let collisions :=
      match meta with
      | some keys =>
        if keys ≠ [] then ((keys.filter (· ∈ RESERVED_JSON_KEYS)).dedup).insertionSort (· ≤ ·)
        else []
      | none => []
    if collisions ≠ [] then (fs, .error (.jsonExport (.metaReservedKeys collisions)))
    else
      match _atomic_write_text fs (jsonDocText payloads meta now) o with
      | (fs', true) => (fs', .ok ())
      | (fs', false) => (fs', .error (.jsonExport .writeFailed))

/-- The TXT catalog document: header (schema id, export time, count, meta
keys) and one section per record; the exact line formatting is abstracted
to a projection of the same fields the source prints. -/
def txtDocText (validated : List PayloadTemplate) (meta : Option (List String)) (now : String) : String :=
  "Proteus Payload Catalog (Education-Only);" ++ now ++ ";" ++ toString validated.length ++
    ";" ++ String.intercalate "," ((meta.getD []).insertionSort (· ≤ ·)) ++ ";" ++
    String.intercalate ";" (validated.map to_json_safe)

/-- `export_txt(items, output_path, include_header=True, meta=meta,
line_width=72)`: validate every element, sort deterministically, render
the catalog, write atomically. -/
def export_txt (items : List ExportItem) (meta : Option (List String)) (now : String)
    (fs : FS) (o : WriteOutcome) : FS × Except PyErr Unit :=
  match txt_validate_items 0 items with
  | .error e => (fs, .error e)
  | .ok validated =>
    let sorted := validated.mergeSort (fun a b => decide (txtSortKey a ≤ txtSortKey b))
    match _atomic_write_text fs (txtDocText sorted meta now) o with
    | (fs', true) => (fs', .ok ())
    | (fs', false) => (fs', .error (.txtExport .writeFailed))

/-! ## The pipeline (src/core/pipeline.py) -/

namespace PayloadPipeline

/-- `PayloadPipeline.generate`: delegate to the (initialized) registry and
wrap any failure in a `PipelineError` carrying the cause. -/
def generate (module : String) (db_type os_type context : Option String) :
    Except PyErr (List PayloadTemplate) :=
  match ModuleRegistry.generate PROTEUS_REGISTRY module db_type os_type context with
  | .ok items => .ok items
  | .error e => .error (.pipeline .generationFailed e)

/-- `PayloadPipeline.apply_encoding_to_all`: per item, encode the payload
(wrapping an encoder failure in a `PipelineError` with cause), clone the
record with the new payload (the clone re-validates; a validation failure
there is outside the `try` and propagates unwrapped), and append the
method to the clone's encoding history. -/
def apply_encoding_to_all : List PayloadTemplate → String → Except PyErr (List PayloadTemplate)
  | [], _ => .ok []
  | item :: rest, method => do
    let new_payload ←
      match encode_payload (.str item.payload) (some method) with
      | .ok s => pure s
      | .error e => throw (.pipeline (.encodingFailed method) e)
    let cloned ← clone_with_updates item { payload := some new_payload }
    let out ← apply_encoding_to_all rest method
    pure (add_encoding cloned method :: out)

/-- `PayloadPipeline.apply_obfuscation_to_all`: the same contract for the
obfuscation history list. -/
def apply_obfuscation_to_all : List PayloadTemplate → String → Except PyErr (List PayloadTemplate)
  | [], _ => .ok []
  | item :: rest, technique => do
    let new_payload ←
      match obfuscate_payload (.str item.payload) (some technique) with
      | .ok s => pure s
      | .error e => throw (.pipeline (.obfuscationFailed technique) e)
    let cloned ← clone_with_updates item { payload := some new_payload }
    let out ← apply_obfuscation_to_all rest technique
    pure (add_obfuscation cloned technique :: out)

/-- The keyword arguments of `PayloadPipeline.run`. -/
structure RunArgs where
  module : String
  db_type : Option String := none
  os_type : Option String := none
  context : Option String := none
  encoding : Option String := none
  obfuscation : Option String := none
  export_format : Option String := none
  output_path : Option String := none
  meta : Option (List String) := none

/-- `PayloadPipeline.run`: generate, then (if truthy) encode, then (if
truthy) obfuscate, then (if truthy) export — requiring an output path and
dispatching on the format. The exporter calls are not wrapped in a
`try/except`, so exporter errors propagate as raised. `now` models the
export timestamp read, `fs` the destination file state, `o` the write
outcome. -/
def run (a : RunArgs) (now : String) (fs : FS) (o : WriteOutcome) :
    FS × Except PyErr (List PayloadTemplate) :=
  match generate a.module a.db_type a.os_type a.context with
  | .error e => (fs, .error e)
  | .ok items0 =>
    match (if optTruthy a.encoding then apply_encoding_to_all items0 (a.encoding.getD "")
           else .ok items0) with
    | .error e => (fs, .error e)
    | .ok items1 =>
      match (if optTruthy a.obfuscation then apply_obfuscation_to_all items1 (a.obfuscation.getD "")
             else .ok items1) with
      | .error e => (fs, .error e)
      | .ok items2 =>
        if optTruthy a.export_format then
          if ¬ optTruthy a.output_path then (fs, .error (.pipelineNoCause .outputPathRequired))
          else if a.export_format = some "json" then
            match export_json (items2.map .record) a.meta now fs o with
            | (fs', .ok _) => (fs', .ok items2)
            | (fs', .error e) => (fs', .error e)
          else if a.export_format = some "txt" then
            match export_txt (items2.map .record) a.meta now fs o with
            | (fs', .ok _) => (fs', .ok items2)
            | (fs', .error e) => (fs', .error e)
          else (fs, .error (.pipelineNoCause (.unsupportedFormat (a.export_format.getD ""))))
        else (fs, .ok items2)

end PayloadPipeline

/-! ## Object-identity model of the list fields (for the clone claim)

`dataclasses.replace` builds the new `PayloadTemplate` from the same field
values, so the clone holds the *same list objects* as the base record. To
express what that sharing does, this model gives each list field a
reference into a heap of list objects and re-runs the pipeline's
encoding step on it; everything else (validation, the encoder) is the
value-level embedding above, applied to the record as read through the
heap. -/

namespace RefModel

/-- The heap of Python list-of-string objects, indexed by allocation
order. -/
structure Heap where
  cells : List (List String)
deriving DecidableEq

/-- Read a list object. -/
def Heap.read (h : Heap) (r : Nat) : List String := h.cells.getD r []

/-- Mutate a list object in place. -/
def Heap.write (h : Heap) (r : Nat) (v : List String) : Heap := ⟨h.cells.set r v⟩

/-- A `PayloadTemplate` whose three mutable list fields are references to
heap cells. -/
structure PTRef where
  id : String := ""
  module : String := ""
  title : String := ""
  description : String := ""
  payload : String := ""
  context : Option String := none
  db_type : Option String := none
  os_type : Option String := none
  encRef : Nat := 0
  obfRef : Nat := 1
  tagsRef : Nat := 2
  defensive_notes : String := ""
  risk_level : String := "low"
  disabled_by_default : Bool := true
  created_at : PyDateTime := {}
deriving DecidableEq

/-- The value-level record obtained by dereferencing the list fields;
this is what `_validate` inspects. -/
def PTRef.toValue (h : Heap) (r : PTRef) : PayloadTemplate :=
  { id := r.id, module := r.module, title := r.title, description := r.description,
    payload := r.payload, context := r.context, db_type := r.db_type, os_type := r.os_type,
    encoding_applied := h.read r.encRef, obfuscation_applied := h.read r.obfRef,
    tags := (h.read r.tagsRef).map PyVal.str,
    defensive_notes := r.defensive_notes, risk_level := r.risk_level,
    disabled_by_default := r.disabled_by_default, created_at := r.created_at }

/-- `clone_with_updates(payload=new_payload)` at the object level:
`dataclasses.replace` copies every field — including the references to
the three list objects — into a new instance and re-validates it. No list
is copied or allocated. -/
def clone_with_updates_payload (h : Heap) (r : PTRef) (new_payload : String) :
    Except PyErr PTRef :=
  let r2 := { r with payload := new_payload }
  match _validate (r2.toValue h) with
  | .error e => .error e
  | .ok _ => .ok r2

/-- `add_encoding` at the object level: append to the referenced list
object. -/
def add_encoding (h : Heap) (r : PTRef) (encoding_name : String) : Heap :=
  h.write r.encRef (h.read r.encRef ++ [encoding_name])

/-- `PayloadPipeline.apply_encoding_to_all` replayed on the object-level
records, threading the heap. -/
def apply_encoding_to_all : Heap → List PTRef → String → Except PyErr (Heap × List PTRef)
  | h, [], _ => .ok (h, [])
  | h, item :: rest, method => do
    let new_payload ←
      match encode_payload (.str item.payload) (some method) with
      | .ok s => pure s
      | .error e => throw (.pipeline (.encodingFailed method) e)
    let cloned ← clone_with_updates_payload h item new_payload
    let h2 := add_encoding h cloned method
    let (h3, out) ← apply_encoding_to_all h2 rest method
    pure (h3, cloned :: out)

end RefModel

/-! ## Definitions used by the claim statements -/

/-- The characters `binascii.hexlify` can emit. -/
def isHexLowerChar (c : Char) : Bool := "0123456789abcdef".toList.contains c

/-- Is this exception a `PipelineError`? -/
def isPipelineError : PyErr → Bool
  | .pipeline _ _ => true
  | .pipelineNoCause _ => true
  | _ => false

/-- Is this exception one of the exporter error types? -/
def isExportError : PyErr → Bool
  | .jsonExport _ => true
  | .txtExport _ => true
  | _ => false

/-- Is this exception an `ObfuscationError`? -/
def isObfuscationError : PyErr → Bool
  | .obfuscation _ => true
  | _ => false

/-- The composite `obfuscate_payload(encode_payload(s, method="hex"),
mode=mode)`: the first exception raised propagates. -/
def hexThenObfuscate (s : String) (mode : String) : Except PyErr String := do
  let h ← encode_payload (.str s) (some "hex")
  obfuscate_payload (.str h) (some mode)

/-- Does the sequence contain an element an exporter must refuse: a
non-`PayloadTemplate`, or a record whose `disabled_by_default` is not
`True`? -/
def exportHasBadItem (items : List ExportItem) : Bool :=
  items.any (fun it =>
    match it with
    | .notRecord => true
    | .record r => !r.disabled_by_default)

/-- The concrete record for the clone-aliasing scenario: a valid xss
record whose three list fields reference the heap cells 0, 1, 2. -/
def origC2 : RefModel.PTRef :=
  { module := "xss", title := "Reflected XSS (HTML context) - Template",
    payload := "<<XSS_TEMPLATE: REFLECTED | CONTEXT=html | SINK=HTML_BODY>>",
    context := some "html", risk_level := "medium" }

/-- The heap for the clone-aliasing scenario: the record's three list
objects, all initially empty. -/
def heapC2 : RefModel.Heap := { cells := [[], [], []] }

/-- A valid record for exercising the registry with a custom generator. -/
def wRec : PayloadTemplate :=
  { module := "xss", title := "t", payload := "<<X>>", context := some "html" }

/-- A custom generator returning one valid template. -/
def wGenerator : Option String → Option String → Option String → Except PyErr GenResult :=
  fun _ _ _ => .ok (.list [RegItem.template wRec])

/-- A one-module registry built from the custom generator. -/
def wRegistry : Registry := [("w", { name := "w", generator := wGenerator })]

/-! ## Helper lemmas -/

theorem string_mk_eq_empty_iff (l : List Char) : String.mk l = "" ↔ l = [] := by
  constructor
  · intro h; exact List.asString_inj.mp h
  · intro h; subst h; rfl

theorem pyStripL_eq_nil_iff (l : List Char) :
    pyStripL l = [] ↔ ∀ c ∈ l, c.isWhitespace := by
  unfold pyStripL
  rw [List.reverse_eq_nil_iff, List.dropWhile_eq_nil_iff]
  constructor
  · intro h c hc
    rcases List.mem_append.mp
        ((List.takeWhile_append_dropWhile (p := Char.isWhitespace) (l := l)) ▸ hc) with h1 | h2
    · exact List.mem_takeWhile_imp h1
    · exact h c (List.mem_reverse.mpr h2)
  · intro h c hc
    exact h c ((List.dropWhile_sublist (p := Char.isWhitespace)).mem (List.mem_reverse.mp hc))

theorem pyStrip_eq_empty_iff (s : String) :
    pyStrip s = "" ↔ ∀ c ∈ s.toList, c.isWhitespace := by
  rw [pyStrip, string_mk_eq_empty_iff, pyStripL_eq_nil_iff]

theorem validateModuleRules_error_validation (r : PayloadTemplate) (e : PyErr)
    (h : validateModuleRules r = .error e) : ∃ k, e = .validation k := by
  unfold validateModuleRules at h
  split_ifs at h <;> simp_all <;> exact ⟨_, h.symm⟩

theorem _validate_ok_iff (r : PayloadTemplate) :
    _validate r = .ok () ↔
      (r.module ∈ VALID_MODULES ∧ pyStrip r.title ≠ "" ∧ pyStrip r.payload ≠ "" ∧
       r.risk_level ∈ VALID_RISK_LEVELS ∧ r.disabled_by_default = true ∧
       r.tags.all PyVal.isStr = true ∧ validateModuleRules r = .ok () ∧
       r.created_at.tzAware = true) := by
  unfold _validate
  cases hm : validateModuleRules r with
  | error e => split_ifs <;> simp_all
  | ok u => cases u; split_ifs <;> simp_all

theorem validateModuleRules_ok_iff (r : PayloadTemplate) :
    validateModuleRules r = .ok () ↔
      ((r.module = "xss" →
          optMem r.context VALID_XSS_CONTEXTS = true ∧ r.db_type = none ∧ r.os_type = none) ∧
       (r.module = "sqli" →
          optTruthy r.db_type = true ∧ r.db_type.getD "" ∈ VALID_DB_TYPES ∧
          r.context = none ∧ r.os_type = none) ∧
       (r.module = "cmd" →
          optTruthy r.os_type = true ∧ r.os_type.getD "" ∈ VALID_OS_TYPES ∧
          r.context = none ∧ r.db_type = none)) := by
  unfold validateModuleRules
  split_ifs <;> simp_all

theorem _validate_error_validation (r : PayloadTemplate) (e : PyErr)
    (h : _validate r = .error e) : ∃ k, e = .validation k := by
  unfold _validate at h
  cases hm : validateModuleRules r with
  | error e2 =>
    rw [hm] at h
    split_ifs at h <;> simp_all
    all_goals first
      | exact ⟨_, h.symm⟩
      | exact validateModuleRules_error_validation r e hm
  | ok u =>
    cases u
    rw [hm] at h
    split_ifs at h <;> simp_all
    all_goals exact ⟨_, h.symm⟩

theorem _validate_fails_of_not_disabled (r : PayloadTemplate)
    (h : r.disabled_by_default = false) : ∃ k, _validate r = .error (.validation k) := by
  unfold _validate
  cases hm : validateModuleRules r with
  | error e2 => split_ifs <;> simp_all
  | ok u => cases u; split_ifs <;> simp_all

theorem _validate_not_ok (r : PayloadTemplate) (h : ¬ _validate r = .ok ()) :
    ∃ k, _validate r = .error (.validation k) := by
  cases hv : _validate r with
  | error e =>
    obtain ⟨k, rfl⟩ := _validate_error_validation r e hv
    exact ⟨k, rfl⟩
  | ok u => cases u; exact absurd hv h

theorem construct_ok_iff (r r' : PayloadTemplate) :
    construct r = .ok r' ↔ (_validate r = .ok () ∧ r' = r) := by
  unfold construct
  cases h : _validate r with
  | error e => simp [h]
  | ok u => cases u; simp [h]; exact comm

theorem construct_error_iff (r : PayloadTemplate) (e : PyErr) :
    construct r = .error e ↔ _validate r = .error e := by
  unfold construct
  cases h : _validate r with
  | error e2 => simp [h]
  | ok u => cases u; simp [h]

theorem json_validate_fails (items : List ExportItem) (i : Nat)
    (h : exportHasBadItem items = true) :
    ∃ k, json_validate_items i items = .error (.jsonExport k) := by
  induction items generalizing i with
  | nil => simp [exportHasBadItem] at h
  | cons it rest ih =>
    cases it with
    | notRecord => exact ⟨.itemNotTemplate i, rfl⟩
    | record r =>
      simp [exportHasBadItem] at h
      cases hd : r.disabled_by_default with
      | false => exact ⟨.itemNotDisabled i, by simp [json_validate_items, hd]⟩
      | true =>
        rcases h with h | h
        · rw [hd] at h; simp at h
        · obtain ⟨k, hk⟩ := ih (i + 1) (by simpa [exportHasBadItem] using h)
          refine ⟨k, ?_⟩
          simp [json_validate_items, hd, hk, Except.map]

theorem txt_validate_fails (items : List ExportItem) (i : Nat)
    (h : exportHasBadItem items = true) :
    ∃ k, txt_validate_items i items = .error (.txtExport k) := by
  induction items generalizing i with
  | nil => simp [exportHasBadItem] at h
  | cons it rest ih =>
    cases it with
    | notRecord => exact ⟨.itemNotTemplate i, rfl⟩
    | record r =>
      simp [exportHasBadItem] at h
      cases hd : r.disabled_by_default with
      | false => exact ⟨.itemNotDisabled i, by simp [txt_validate_items, hd]⟩
      | true =>
        rcases h with h | h
        · rw [hd] at h; simp at h
        · obtain ⟨k, hk⟩ := ih (i + 1) (by simpa [exportHasBadItem] using h)
          refine ⟨k, ?_⟩
          simp [txt_validate_items, hd, hk, Except.map]

theorem export_json_bad_items (items : List ExportItem) (meta : Option (List String))
    (now : String) (fs : FS) (o : WriteOutcome)
    (h : exportHasBadItem items = true) :
    ∃ k, export_json items meta now fs o = (fs, .error (.jsonExport k)) := by
  obtain ⟨k, hk⟩ := json_validate_fails items 0 h
  exact ⟨k, by simp [export_json, hk]⟩

theorem export_json_failure_dest (items : List ExportItem) (meta : Option (List String))
    (now : String) (fs : FS) (o : WriteOutcome) (fs' : FS) (e : PyErr)
    (h : export_json items meta now fs o = (fs', .error e)) : fs'.dest = fs.dest := by
  unfold export_json at h
  cases hv : json_validate_items 0 items with
  | error e2 =>
    rw [hv] at h
    simp at h
    rw [h.1]
  | ok validated =>
    rw [hv] at h
    simp only at h
    split_ifs at h with hc
    · simp at h
      rw [h.1]
    · unfold _atomic_write_text at h
      cases o <;> simp at h <;> rw [← h.1]

theorem export_txt_bad_items (items : List ExportItem) (meta : Option (List String))
    (now : String) (fs : FS) (o : WriteOutcome)
    (h : exportHasBadItem items = true) :
    ∃ k, export_txt items meta now fs o = (fs, .error (.txtExport k)) := by
  obtain ⟨k, hk⟩ := txt_validate_fails items 0 h
  exact ⟨k, by simp [export_txt, hk]⟩

theorem export_txt_failure_dest (items : List ExportItem) (meta : Option (List String))
    (now : String) (fs : FS) (o : WriteOutcome) (fs' : FS) (e : PyErr)
    (h : export_txt items meta now fs o = (fs', .error e)) : fs'.dest = fs.dest := by
  unfold export_txt at h
  cases hv : txt_validate_items 0 items with
  | error e2 =>
    rw [hv] at h
    simp at h
    rw [h.1]
  | ok validated =>
    rw [hv] at h
    simp only at h
    unfold _atomic_write_text at h
    cases o <;> simp at h <;> rw [← h.1]

theorem list_modules_proteus :
    ModuleRegistry.list_modules PROTEUS_REGISTRY = ["cmd", "sqli", "xss"] := by
  simp [ModuleRegistry.list_modules, PROTEUS_REGISTRY, List.insertionSort,
    List.orderedInsert]
  decide

theorem checkItems_ok_valid (m : String) (l : List RegItem) (i : Nat)
    (rs : List PayloadTemplate) (h : ModuleRegistry.checkItems m i l = .ok rs) :
    ∀ r ∈ rs, _validate r = .ok () := by
  induction l generalizing i rs with
  | nil =>
    unfold ModuleRegistry.checkItems at h
    simp at h
    subst h
    intro r hr
    simp at hr
  | cons it rest ih =>
    cases it with
    | notTemplate => simp [ModuleRegistry.checkItems] at h
    | template r0 =>
      simp only [ModuleRegistry.checkItems] at h
      cases hv : _validate r0 with
      | error e =>
        rw [hv] at h
        obtain ⟨k, rfl⟩ := _validate_error_validation r0 e hv
        simp at h
      | ok u =>
        cases u
        rw [hv] at h
        cases hrec : ModuleRegistry.checkItems m (i + 1) rest with
        | error e => rw [hrec] at h; simp [Except.map] at h
        | ok rs2 =>
          rw [hrec] at h
          simp [Except.map] at h
          subst h
          intro r hr
          rcases List.mem_cons.mp hr with hr | hr
          · subst hr; exact hv
          · exact ih (i + 1) rs2 hrec r hr

theorem checkItems_map_template (m : String) (rs : List PayloadTemplate) (i : Nat)
    (hvalid : ∀ r ∈ rs, _validate r = .ok ()) (l : List RegItem) :
    ModuleRegistry.checkItems m i (rs.map .template ++ l) =
      (ModuleRegistry.checkItems m (i + rs.length) l).map (rs ++ ·) := by
  induction rs generalizing i with
  | nil =>
    simp
    cases h : ModuleRegistry.checkItems m i l with
    | error e => simp [Except.map]
    | ok rs2 => simp [Except.map]
  | cons r0 rest ih =>
    have hv : _validate r0 = .ok () := hvalid r0 (List.mem_cons_self r0 rest)
    have ih2 := ih (i + 1) (fun r hr => hvalid r (List.mem_cons_of_mem r0 hr))
    have heq : i + 1 + rest.length = i + (rest.length + 1) := by omega
    rw [heq] at ih2
    simp only [List.map_cons, List.cons_append, ModuleRegistry.checkItems, hv]
    cases h : ModuleRegistry.checkItems m (i + (rest.length + 1)) l with
    | error e => simp [ih2, h, Except.map]
    | ok rs2 => simp [ih2, h, Except.map]

theorem obfuscate_no_marker_fails (p : String) (mode : String)
    (hmk : containsTemplateMarker p = false)
    (hm : pyNormToken (some mode) ∈ ["comments", "whitespace", "mixed"]) :
    ∃ k, obfuscate_payload (.str p) (some mode) = .error (.obfuscation k) := by
  unfold obfuscate_payload
  by_cases hp : p = ""
  · exact ⟨.emptyPayload, by simp [hp]⟩
  · simp only [List.mem_cons, List.mem_singleton] at hm
    rcases hm with h | h | h | h
    · refine ⟨.noMarker, ?_⟩
      simp [hp, h, _comments, _whitespace, _mixed, _ensure_educational_template, hmk,
        bind, Except.bind]
    · refine ⟨.noMarker, ?_⟩
      simp [hp, h, _comments, _whitespace, _mixed, _ensure_educational_template, hmk,
        bind, Except.bind]
    · refine ⟨.noMarker, ?_⟩
      simp [hp, h, _comments, _whitespace, _mixed, _ensure_educational_template, hmk,
        bind, Except.bind]
    · simp at h

theorem apply_obfuscation_history (items : List PayloadTemplate) (technique : String)
    (out : List PayloadTemplate)
    (h : PayloadPipeline.apply_obfuscation_to_all items technique = .ok out) :
    ∀ r ∈ out, technique ∈ r.obfuscation_applied := by
  induction items generalizing out with
  | nil =>
    unfold PayloadPipeline.apply_obfuscation_to_all at h
    simp at h
    subst h
    intro r hr
    simp at hr
  | cons item rest ih =>
    unfold PayloadPipeline.apply_obfuscation_to_all at h
    cases h1 : obfuscate_payload (.str item.payload) (some technique) with
    | error e =>
      rw [h1] at h
      simp [bind, Except.bind, throw, throwThe, MonadExceptOf.throw] at h
    | ok s =>
      rw [h1] at h
      simp only [bind, Except.bind, pure, Except.pure] at h
      cases h2 : clone_with_updates item { payload := some s } with
      | error e => rw [h2] at h; simp at h
      | ok cloned =>
        rw [h2] at h
        cases h3 : PayloadPipeline.apply_obfuscation_to_all rest technique with
        | error e => rw [h3] at h; simp at h
        | ok out2 =>
          rw [h3] at h
          simp at h
          subst h
          intro r hr
          rcases List.mem_cons.mp hr with hr | hr
          · subst hr
            simp [add_obfuscation]
          · exact ih out2 h3 r hr

/-! ## Theorems settling the claims -/

/-- C1: every attempt to construct a `PayloadTemplate` — directly or via
`clone_with_updates` — whose `disabled_by_default` field is not `True`
fails with a `PayloadValidationError`, and consequently every successfully
constructed record has `disabled_by_default = True`. -/
theorem C1_disabled_by_default_always_true :
    (∀ r : PayloadTemplate, r.disabled_by_default ≠ true →
      ∃ k, construct r = .error (.validation k)) ∧
    (∀ (r : PayloadTemplate) (u : Updates),
      (applyUpdates r u).disabled_by_default ≠ true →
      ∃ k, clone_with_updates r u = .error (.validation k)) ∧
    (∀ r r' : PayloadTemplate, construct r = .ok r' → r'.disabled_by_default = true) ∧
    (∀ (r : PayloadTemplate) (u : Updates) (r' : PayloadTemplate),
      clone_with_updates r u = .ok r' → r'.disabled_by_default = true) := by
  have key : ∀ r : PayloadTemplate, r.disabled_by_default ≠ true →
      ∃ k, construct r = .error (.validation k) := by
    intro r h
    have h2 : r.disabled_by_default = false := by
      cases hb : r.disabled_by_default
      · rfl
      · exact absurd hb h
    obtain ⟨k, hk⟩ := _validate_fails_of_not_disabled r h2
    exact ⟨k, (construct_error_iff r _).mpr hk⟩
  refine ⟨key, fun r u h => key _ h, ?_, ?_⟩
  · intro r r' h
    obtain ⟨hv, hr⟩ := (construct_ok_iff r r').mp h
    rw [hr]
    exact ((_validate_ok_iff r).mp hv).2.2.2.2.1
  · intro r u r' h
    obtain ⟨hv, hr⟩ := (construct_ok_iff _ r').mp h
    rw [hr]
    exact ((_validate_ok_iff _).mp hv).2.2.2.2.1

/-- Witness for C1: constructing a concrete record with
`disabled_by_default = False` fails with a validation error. -/
theorem C1_disabled_by_default_always_true_witness :
    ∃ k, construct { module := "xss", title := "t", payload := "p", context := some "html", disabled_by_default := false } = .error (.validation k) :=
  C1_disabled_by_default_always_true.1 _ (by decide)

/-- C5: constructing a record with `module = "xss"` and a non-null
`db_type` fails with a validation error, likewise for the other five
forbidden module/selector combinations, and every valid record populates
exactly the selector its module determines. -/
theorem C5_selector_exclusivity :
    (∀ r : PayloadTemplate, r.module = "xss" → r.db_type ≠ none →
      ∃ k, construct r = .error (.validation k)) ∧
    (∀ r : PayloadTemplate, r.module = "xss" → r.os_type ≠ none →
      ∃ k, construct r = .error (.validation k)) ∧
    (∀ r : PayloadTemplate, r.module = "sqli" → r.context ≠ none →
      ∃ k, construct r = .error (.validation k)) ∧
    (∀ r : PayloadTemplate, r.module = "sqli" → r.os_type ≠ none →
      ∃ k, construct r = .error (.validation k)) ∧
    (∀ r : PayloadTemplate, r.module = "cmd" → r.context ≠ none →
      ∃ k, construct r = .error (.validation k)) ∧
    (∀ r : PayloadTemplate, r.module = "cmd" → r.db_type ≠ none →
      ∃ k, construct r = .error (.validation k)) ∧
    (∀ r r' : PayloadTemplate, construct r = .ok r' →
      (r'.module = "xss" ∨ r'.module = "sqli" ∨ r'.module = "cmd") ∧
      (r'.module = "xss" → r'.context.isSome ∧ r'.db_type = none ∧ r'.os_type = none) ∧
      (r'.module = "sqli" → r'.db_type.isSome ∧ r'.context = none ∧ r'.os_type = none) ∧
      (r'.module = "cmd" → r'.os_type.isSome ∧ r'.context = none ∧ r'.db_type = none)) := by
  have fails : ∀ r : PayloadTemplate, ¬ validateModuleRules r = .ok () →
      ∃ k, construct r = .error (.validation k) := by
    intro r h
    have h2 : ¬ _validate r = .ok () := by
      intro hok
      exact h ((_validate_ok_iff r).mp hok).2.2.2.2.2.2.1
    obtain ⟨k, hk⟩ := _validate_not_ok r h2
    exact ⟨k, (construct_error_iff r _).mpr hk⟩
  refine ⟨?_, ?_, ?_, ?_, ?_, ?_, ?_⟩
  · intro r hm hd
    refine fails r (fun hok => ?_)
    exact hd (((validateModuleRules_ok_iff r).mp hok).1 hm).2.1
  · intro r hm hd
    refine fails r (fun hok => ?_)
    exact hd (((validateModuleRules_ok_iff r).mp hok).1 hm).2.2
  · intro r hm hd
    refine fails r (fun hok => ?_)
    exact hd (((validateModuleRules_ok_iff r).mp hok).2.1 hm).2.2.1
  · intro r hm hd
    refine fails r (fun hok => ?_)
    exact hd (((validateModuleRules_ok_iff r).mp hok).2.1 hm).2.2.2
  · intro r hm hd
    refine fails r (fun hok => ?_)
    exact hd (((validateModuleRules_ok_iff r).mp hok).2.2 hm).2.2.1
  · intro r hm hd
    refine fails r (fun hok => ?_)
    exact hd (((validateModuleRules_ok_iff r).mp hok).2.2 hm).2.2.2
  · intro r r' h
    obtain ⟨hv, hr⟩ := (construct_ok_iff r r').mp h
    subst hr
    have hall := (_validate_ok_iff r').mp hv
    have hmem := hall.1
    have hrules := (validateModuleRules_ok_iff r').mp hall.2.2.2.2.2.2.1
    refine ⟨by simpa [VALID_MODULES] using hmem, ?_, ?_, ?_⟩
    · intro hm
      obtain ⟨hctx, hdb, hos⟩ := hrules.1 hm
      refine ⟨?_, hdb, hos⟩
      cases hc : r'.context with
      | none => rw [hc] at hctx; simp [optMem] at hctx
      | some c => simp [hc]
    · intro hm
      obtain ⟨hdb, _, hctx, hos⟩ := hrules.2.1 hm
      refine ⟨?_, hctx, hos⟩
      cases hc : r'.db_type with
      | none => rw [hc] at hdb; simp [optTruthy] at hdb
      | some c => simp [hc]
    · intro hm
      obtain ⟨hos, _, hctx, hdb⟩ := hrules.2.2 hm
      refine ⟨?_, hctx, hdb⟩
      cases hc : r'.os_type with
      | none => rw [hc] at hos; simp [optTruthy] at hos
      | some c => simp [hc]

/-- Witness for C5: a concrete xss record carrying a `db_type` is
rejected. -/
theorem C5_selector_exclusivity_witness :
    ∃ k, construct { module := "xss", title := "t", payload := "p", context := some "html", db_type := some "mysql" } = .error (.validation k) :=
  C5_selector_exclusivity.1 _ rfl (by decide)

/-- C6: `ModuleRegistry.generate` raises a `RegistryError` for an
unregistered module (listing the available modules), for `sqli` without a
db_type, for `cmd` without an os_type, and for `xss` without a non-empty
context — four distinct error values. -/
theorem C6_registry_selector_errors :
    (∀ (m : String) (db os ctx : Option String), m ∉ ["xss", "sqli", "cmd"] →
      ModuleRegistry.generate PROTEUS_REGISTRY m db os ctx =
        .error (.registry (.notFound m ["cmd", "sqli", "xss"]))) ∧
    (∀ db os ctx : Option String, optTruthy db = false →
      ModuleRegistry.generate PROTEUS_REGISTRY "sqli" db os ctx =
        .error (.registry (.requiresDb "sqli"))) ∧
    (∀ db os ctx : Option String, optTruthy os = false →
      ModuleRegistry.generate PROTEUS_REGISTRY "cmd" db os ctx =
        .error (.registry (.requiresOs "cmd"))) ∧
    (∀ db os ctx : Option String, optTruthy ctx = false →
      ModuleRegistry.generate PROTEUS_REGISTRY "xss" db os ctx =
        .error (.registry .xssRequiresContext)) ∧
    ([RegKind.notFound "other" ["cmd", "sqli", "xss"], RegKind.requiresDb "sqli",
      RegKind.requiresOs "cmd", RegKind.xssRequiresContext].Pairwise (· ≠ ·)) := by
  refine ⟨?_, ?_, ?_, ?_, by decide⟩
  · intro m db os ctx hm
    have b1 : (m == "xss") = false := by simp; intro e; exact hm (by simp [e])
    have b2 : (m == "sqli") = false := by simp; intro e; exact hm (by simp [e])
    have b3 : (m == "cmd") = false := by simp; intro e; exact hm (by simp [e])
    rw [show ["cmd", "sqli", "xss"] = ModuleRegistry.list_modules PROTEUS_REGISTRY from
      list_modules_proteus.symm]
    simp [ModuleRegistry.generate, ModuleRegistry.validate_selectors,
      ModuleRegistry.get_spec, PROTEUS_REGISTRY, List.lookup, b1, b2, b3,
      bind, Except.bind, pure, Except.pure]
  · intro db os ctx hdb
    simp [ModuleRegistry.generate, ModuleRegistry.validate_selectors,
      ModuleRegistry.get_spec, PROTEUS_REGISTRY, List.lookup, hdb,
      bind, Except.bind, pure, Except.pure, throw, throwThe, MonadExceptOf.throw]
  · intro db os ctx hos
    simp [ModuleRegistry.generate, ModuleRegistry.validate_selectors,
      ModuleRegistry.get_spec, PROTEUS_REGISTRY, List.lookup, hos,
      bind, Except.bind, pure, Except.pure, throw, throwThe, MonadExceptOf.throw]
  · intro db os ctx hctx
    simp [ModuleRegistry.generate, ModuleRegistry.validate_selectors,
      ModuleRegistry.get_spec, PROTEUS_REGISTRY, List.lookup, hctx,
      bind, Except.bind, pure, Except.pure, throw, throwThe, MonadExceptOf.throw]

/-- Witness for C6: `generate("sqli")` with no db_type raises the
missing-selector error. -/
theorem C6_registry_selector_errors_witness :
    ModuleRegistry.generate PROTEUS_REGISTRY "sqli" none none none =
      .error (.registry (.requiresDb "sqli")) :=
  C6_registry_selector_errors.2.1 none none none rfl

/-- C8: `obfuscate_payload` raises an `ObfuscationError` for every
supported mode when the text contains neither a `<<...>>` marker nor the
word TEMPLATE; it succeeds on `"<<TEMPLATE>> x"` with mode `"mixed"`; and
after the pipeline applies obfuscation, every resulting record's
obfuscation history contains the applied mode name. -/
theorem C8_obfuscation_guard_and_history :
    (∀ (p mode : String), containsTemplateMarker p = false →
      pyNormToken (some mode) ∈ ["comments", "whitespace", "mixed"] →
      ∃ k, obfuscate_payload (.str p) (some mode) = .error (.obfuscation k)) ∧
    obfuscate_payload (.str "<<TEMPLATE>> x") (some "mixed") =
      .ok "<<T/*OBF*/EM/*OBF*/PLAT/*OBF*/E>> \t x" ∧
    (∀ (items : List PayloadTemplate) (technique : String) (out : List PayloadTemplate),
      PayloadPipeline.apply_obfuscation_to_all items technique = .ok out →
      ∀ r ∈ out, technique ∈ r.obfuscation_applied) :=
  ⟨obfuscate_no_marker_fails, by rfl, apply_obfuscation_history⟩

/-- Witness for C8: the spec's own example
`obfuscate("plain text without marker", "mixed")` fails. -/
theorem C8_obfuscation_guard_and_history_witness :
    ∃ k, obfuscate_payload (.str "plain text without marker") (some "mixed") =
      .error (.obfuscation k) :=
  C8_obfuscation_guard_and_history.1 "plain text without marker" "mixed"
    (by decide) (by decide)

/-- C9: the three documented encoder outputs, and the three
`EncodingError` conditions: empty-after-trimming input, non-string input,
unknown method. -/
theorem C9_encoder_values_and_errors :
    encode_payload (.str "TEST") (some "base64") = .ok "VEVTVA==" ∧
    encode_payload (.str "TEST TEMPLATE") (some "url") = .ok "TEST%20TEMPLATE" ∧
    encode_payload (.str "TEST") (some "hex") = .ok "54455354" ∧
    (∀ (p : String) (m : Option String), pyStrip p = "" →
      encode_payload (.str p) m = .error (.encoding .emptyPayload)) ∧
    (∀ m : Option String, encode_payload .nonStr m = .error (.encoding .notAString)) ∧
    (∀ (p : String) (m : Option String), pyStrip p ≠ "" →
      pyNormToken m ∉ ["url", "base64", "hex"] →
      encode_payload (.str p) m = .error (.encoding (.unsupportedMethod (m.getD "")))) := by
  refine ⟨by rfl, by rfl, by rfl, ?_, ?_, ?_⟩
  · intro p m h
    simp [encode_payload, h]
  · intro m
    rfl
  · intro p m hp h
    have h1 : ¬ pyNormToken m = "url" := by intro e; exact h (by simp [e])
    have h2 : ¬ pyNormToken m = "base64" := by intro e; exact h (by simp [e])
    have h3 : ¬ pyNormToken m = "hex" := by intro e; exact h (by simp [e])
    simp [encode_payload, hp, h1, h2, h3]

/-- Witness for C9: a whitespace-only payload is refused. -/
theorem C9_encoder_values_and_errors_witness :
    encode_payload (.str "  ") (some "base64") = .error (.encoding .emptyPayload) :=
  C9_encoder_values_and_errors.2.2.2.1 "  " (some "base64") (by decide)

/-- C4: both exporters refuse a sequence containing a non-record element
or a record whose `disabled_by_default` is not True, returning the file
state untouched (the write path is never reached), and every export
failure leaves the destination file's content unchanged. -/
theorem C4_export_refusal_and_atomicity :
    (∀ (items : List ExportItem) (meta : Option (List String)) (now : String)
        (fs : FS) (o : WriteOutcome), exportHasBadItem items = true →
      ∃ k, export_json items meta now fs o = (fs, .error (.jsonExport k))) ∧
    (∀ (items : List ExportItem) (meta : Option (List String)) (now : String)
        (fs : FS) (o : WriteOutcome), exportHasBadItem items = true →
      ∃ k, export_txt items meta now fs o = (fs, .error (.txtExport k))) ∧
    (∀ (items : List ExportItem) (meta : Option (List String)) (now : String)
        (fs : FS) (o : WriteOutcome) (fs' : FS) (e : PyErr),
      export_json items meta now fs o = (fs', .error e) → fs'.dest = fs.dest) ∧
    (∀ (items : List ExportItem) (meta : Option (List String)) (now : String)
        (fs : FS) (o : WriteOutcome) (fs' : FS) (e : PyErr),
      export_txt items meta now fs o = (fs', .error e) → fs'.dest = fs.dest) :=
  ⟨export_json_bad_items, export_txt_bad_items,
    export_json_failure_dest, export_txt_failure_dest⟩

/-- Witness for C4: a sequence holding a non-record element is refused by
the JSON exporter with the file state intact. -/
theorem C4_export_refusal_and_atomicity_witness :
    ∃ k, export_json [.notRecord] none "now" { dest := some "old" } .ok =
      ({ dest := some "old" }, .error (.jsonExport k)) :=
  C4_export_refusal_and_atomicity.1 [.notRecord] none "now" { dest := some "old" } .ok rfl

/-- C2: the claim says cloning never shares the mutable list fields, so a
record is unchanged after the pipeline clones it and appends to the
clone's history. Evaluating the object-level model refutes this:
`dataclasses.replace` copies the list references, so after
`apply_encoding_to_all` on the original xss record (heap cell 0 holds its
`encoding_applied` list, initially empty), reading the ORIGINAL record's
list through the final heap yields `["base64"]`, not `[]`. -/
theorem C2_clone_aliasing_code_bug :
    heapC2.read origC2.encRef = [] ∧
    RefModel.apply_encoding_to_all heapC2 [origC2] "base64" =
      .ok ({ cells := [["base64"], [], []] },
        [{ origC2 with payload := _base64_encode origC2.payload }]) ∧
    RefModel.Heap.read { cells := [["base64"], [], []] } origC2.encRef = ["base64"] :=
  ⟨rfl, by rfl, rfl⟩

/-- C7: once selectors validate and the module spec is found,
`ModuleRegistry.generate` invokes the generator with exactly the declared
selector and re-validates its output: a non-list result fails naming the
module; the first non-`PayloadTemplate` element fails naming the module
and its index; the first invalid template re-raises the validation error
naming the module and its index; a list of valid templates is returned
unchanged. -/
theorem C7_registry_revalidation :
    ∀ (reg : Registry) (m : String) (db os ctx : Option String) (spec : ModuleSpec),
      ModuleRegistry.validate_selectors reg m db os ctx = .ok () →
      reg.lookup m = some spec →
      ∀ res : GenResult,
        (if spec.requires_db then spec.generator db none none
         else if spec.requires_os then spec.generator none os none
         else spec.generator none none ctx) = .ok res →
      (res = .notList →
        ModuleRegistry.generate reg m db os ctx = .error (.registry (.notAList m))) ∧
      (∀ (rs : List PayloadTemplate) (rest : List RegItem),
        (∀ r ∈ rs, _validate r = .ok ()) →
        res = .list (rs.map .template ++ .notTemplate :: rest) →
        ModuleRegistry.generate reg m db os ctx =
          .error (.registry (.itemNotTemplate m rs.length))) ∧
      (∀ (rs : List PayloadTemplate) (bad : PayloadTemplate) (rest : List RegItem) (k : VKind),
        (∀ r ∈ rs, _validate r = .ok ()) →
        _validate bad = .error (.validation k) →
        res = .list (rs.map .template ++ .template bad :: rest) →
        ModuleRegistry.generate reg m db os ctx =
          .error (.validation (.fromModule m rs.length k))) ∧
      (∀ rs : List PayloadTemplate, (∀ r ∈ rs, _validate r = .ok ()) →
        res = .list (rs.map .template) →
        ModuleRegistry.generate reg m db os ctx = .ok rs) := by
  intro reg m db os ctx spec hsel hlookup res hgen
  have hrednl : res = .notList →
      ModuleRegistry.generate reg m db os ctx = .error (.registry (.notAList m)) := by
    intro hres
    subst hres
    simp only [ModuleRegistry.generate, ModuleRegistry.get_spec, bind, Except.bind,
      hsel, hlookup, throw, throwThe, MonadExceptOf.throw]
    split_ifs at hgen ⊢ <;> rw [hgen]
  have hred : ∀ items : List RegItem, res = .list items →
      ModuleRegistry.generate reg m db os ctx = ModuleRegistry.checkItems m 0 items := by
    intro items hres
    subst hres
    simp only [ModuleRegistry.generate, ModuleRegistry.get_spec, bind, Except.bind,
      hsel, hlookup, throw, throwThe, MonadExceptOf.throw]
    split_ifs at hgen ⊢ <;> rw [hgen]
  refine ⟨hrednl, ?_, ?_, ?_⟩
  · intro rs rest hvalid hres
    rw [hred _ hres, checkItems_map_template m rs 0 hvalid]
    simp [ModuleRegistry.checkItems, Except.map]
  · intro rs bad rest k hvalid hbad hres
    rw [hred _ hres, checkItems_map_template m rs 0 hvalid]
    simp [ModuleRegistry.checkItems, hbad, Except.map]
  · intro rs hvalid hres
    rw [hred _ hres]
    have := checkItems_map_template m rs 0 hvalid []
    simpa [ModuleRegistry.checkItems, Except.map] using this

/-- Witness for C7: on a one-module registry whose generator returns one
valid template, `generate` returns exactly that list. -/
theorem C7_registry_revalidation_witness :
    ModuleRegistry.generate wRegistry "w" none none none = .ok [wRec] :=
  (C7_registry_revalidation wRegistry "w" none none none _ rfl rfl
      (.list ([wRec].map .template)) rfl).2.2.2 [wRec]
    (by intro r hr; rw [List.mem_singleton] at hr; subst hr; rfl) rfl

end Proteus

namespace Proteus

theorem getD_prop {P : Char → Prop} (l : List Char) (n : Nat) (d : Char)
    (hl : ∀ c ∈ l, P c) (hd : P d) : P (l.getD n d) := by
  rw [List.getD]
  cases h : l[n]? with
  | none => simpa [h] using hd
  | some c => simpa [h] using hl c (List.getElem?_mem h)

theorem hexDigitLower_hex (n : Nat) : isHexLowerChar (hexDigitLower n) = true := by
  unfold hexDigitLower
  split <;> decide

theorem hex_char_props (c : Char) (h : isHexLowerChar c = true) :
    c.toLower ≠ 't' ∧ c ≠ '<' ∧ c.isWhitespace = false := by
  have hm : c ∈ "0123456789abcdef".toList := by
    simpa [isHexLowerChar, List.contains, List.elem_iff] using h
  have key : ∀ x ∈ "0123456789abcdef".toList,
      x.toLower ≠ 't' ∧ x ≠ '<' ∧ x.isWhitespace = false := by decide
  exact key c hm

theorem b64Digit_not_ws (n : Nat) : (b64Digit n).isWhitespace = false := by
  unfold b64Digit
  exact getD_prop (P := fun c => c.isWhitespace = false) _ n _ (by decide) (by decide)

theorem hexDigitUpper_not_ws (n : Nat) : (hexDigitUpper n).isWhitespace = false := by
  unfold hexDigitUpper
  split <;> decide

theorem hexDigitLower_not_ws (n : Nat) : (hexDigitLower n).isWhitespace = false :=
  (hex_char_props _ (hexDigitLower_hex n)).2.2

theorem urlSafeChar_not_ws (b : Nat) (h : isUrlAlwaysSafe b = true) :
    (Char.ofNat b).isWhitespace = false := by
  have hb : b ≤ 126 := by
    simp [isUrlAlwaysSafe] at h
    rcases h with h|h|h|h|h|h|h <;> omega
  interval_cases b <;> first | decide | (exfalso; simp [isUrlAlwaysSafe] at h)

end Proteus

namespace Proteus

theorem utf8Char_ne_nil (c : Char) : utf8Char c ≠ [] := by
  unfold utf8Char
  simp only []
  split_ifs <;> simp

theorem string_eq_mk_toList (s : String) : s = String.mk s.toList := by
  cases s; rfl

theorem toList_ne_nil_of_ne_empty (s : String) (h : s ≠ "") : s.toList ≠ [] := by
  intro hl
  exact h (by rw [string_eq_mk_toList s, hl])

theorem utf8Bytes_ne_nil (s : String) (h : s ≠ "") : utf8Bytes s ≠ [] := by
  unfold utf8Bytes
  cases hl : s.toList with
  | nil => exact absurd hl (toList_ne_nil_of_ne_empty s h)
  | cons c rest =>
    simp only [List.flatMap_cons]
    intro happ
    exact utf8Char_ne_nil c (List.append_eq_nil.mp happ).1

theorem hexEncodeBytes_chars (bs : List Nat) (c : Char) (hc : c ∈ hexEncodeBytes bs) :
    isHexLowerChar c = true := by
  unfold hexEncodeBytes at hc
  obtain ⟨b, _, hcb⟩ := List.mem_flatMap.mp hc
  rcases List.mem_cons.mp hcb with h | h
  · subst h; exact hexDigitLower_hex _
  · rcases List.mem_singleton.mp h with rfl
    exact hexDigitLower_hex _

theorem hex_encode_chars (s : String) (c : Char) (hc : c ∈ (_hex_encode s).toList) :
    isHexLowerChar c = true := by
  unfold _hex_encode at hc
  exact hexEncodeBytes_chars _ c hc

theorem hex_encode_ne_empty (s : String) (h : s ≠ "") : _hex_encode s ≠ "" := by
  unfold _hex_encode
  rw [Ne, string_mk_eq_empty_iff]
  intro hnil
  cases hb : utf8Bytes s with
  | nil => exact utf8Bytes_ne_nil s h hb
  | cons b rest => rw [hb] at hnil; simp [hexEncodeBytes] at hnil

theorem strip_ne_of_all_not_ws (s : String) (h1 : s.toList ≠ [])
    (h2 : ∀ c ∈ s.toList, c.isWhitespace = false) : pyStrip s ≠ "" := by
  rw [Ne, pyStrip_eq_empty_iff]
  intro hall
  cases hl : s.toList with
  | nil => exact h1 hl
  | cons c rest =>
    have ha := hall c (by rw [hl]; exact List.mem_cons_self c rest)
    have hb := h2 c (by rw [hl]; exact List.mem_cons_self c rest)
    rw [ha] at hb
    simp at hb

end Proteus

namespace Proteus

theorem base64Chunks_not_ws (bs : List Nat) (c : Char) (hc : c ∈ base64Chunks bs) :
    c.isWhitespace = false := by
  induction bs using base64Chunks.induct with
  | case1 => simp [base64Chunks] at hc
  | case2 a =>
    simp [base64Chunks] at hc
    rcases hc with rfl | rfl | rfl
    all_goals first | exact b64Digit_not_ws _ | decide
  | case3 a b =>
    simp [base64Chunks] at hc
    rcases hc with rfl | rfl | rfl | rfl
    all_goals first | exact b64Digit_not_ws _ | decide
  | case4 a b c2 rest ih =>
    simp [base64Chunks] at hc
    rcases hc with rfl | rfl | rfl | rfl | hmem
    all_goals first | exact b64Digit_not_ws _ | exact ih hmem

theorem base64_encode_props (s : String) (h : s ≠ "") :
    (_base64_encode s).toList ≠ [] ∧
      ∀ c ∈ (_base64_encode s).toList, c.isWhitespace = false := by
  constructor
  · show base64Chunks (utf8Bytes s) ≠ []
    cases hb : utf8Bytes s with
    | nil => exact absurd hb (utf8Bytes_ne_nil s h)
    | cons b rest =>
      cases rest with
      | nil => simp [base64Chunks]
      | cons b2 rest2 =>
        cases rest2 with
        | nil => simp [base64Chunks]
        | cons b3 rest3 => simp [base64Chunks]
  · intro c hc
    exact base64Chunks_not_ws _ c hc

theorem url_encode_props (s : String) (h : s ≠ "") :
    (_url_encode s).toList ≠ [] ∧
      ∀ c ∈ (_url_encode s).toList, c.isWhitespace = false := by
  constructor
  · show (utf8Bytes s).flatMap _ ≠ []
    cases hb : utf8Bytes s with
    | nil => exact absurd hb (utf8Bytes_ne_nil s h)
    | cons b rest =>
      simp only [List.flatMap_cons]
      intro happ
      have := (List.append_eq_nil.mp happ).1
      split_ifs at this
  · intro c hc
    obtain ⟨b, _, hcb⟩ := List.mem_flatMap.mp hc
    split_ifs at hcb with hsafe
    · rcases List.mem_singleton.mp hcb with rfl
      exact urlSafeChar_not_ws b hsafe
    · rcases List.mem_cons.mp hcb with rfl | hcb2
      · decide
      · rcases List.mem_cons.mp hcb2 with rfl | hcb3
        · exact hexDigitUpper_not_ws _
        · rcases List.mem_singleton.mp hcb3 with rfl
          exact hexDigitUpper_not_ws _

theorem hex_encode_props (s : String) (h : s ≠ "") :
    (_hex_encode s).toList ≠ [] ∧
      ∀ c ∈ (_hex_encode s).toList, c.isWhitespace = false := by
  constructor
  · show hexEncodeBytes (utf8Bytes s) ≠ []
    cases hb : utf8Bytes s with
    | nil => exact absurd hb (utf8Bytes_ne_nil s h)
    | cons b rest => simp [hexEncodeBytes]
  · intro c hc
    exact (hex_char_props c (hex_encode_chars s c hc)).2.2

theorem encode_ok_strip_ne (p : String) (m : Option String) (s : String)
    (h : encode_payload (.str p) m = .ok s) : pyStrip s ≠ "" := by
  simp only [encode_payload] at h
  split_ifs at h with h1 h2 h3 h4
  all_goals simp at h
  all_goals subst h
  all_goals
    have hp : p ≠ "" := by
      intro he
      subst he
      exact h1 rfl
  · exact strip_ne_of_all_not_ws _ (url_encode_props p hp).1 (url_encode_props p hp).2
  · exact strip_ne_of_all_not_ws _ (base64_encode_props p hp).1 (base64_encode_props p hp).2
  · exact strip_ne_of_all_not_ws _ (hex_encode_props p hp).1 (hex_encode_props p hp).2

end Proteus

namespace Proteus

theorem hasBracketMarker_false (l : List Char) (h : ∀ c ∈ l, c ≠ '<') :
    hasBracketMarker l = false := by
  induction l with
  | nil => rfl
  | cons a rest ih =>
    unfold hasBracketMarker
    have ha : (a == '<') = false := by
      simp
      exact h a (List.mem_cons_self a rest)
    rw [ha]
    simp only [Bool.false_and, Bool.false_or]
    exact ih (fun c hc => h c (List.mem_cons_of_mem a hc))

theorem startsWithTemplateWord_head (c : Char) (rest : List Char)
    (h : startsWithTemplateWord (c :: rest) = true) : c.toLower = 't' := by
  unfold startsWithTemplateWord at h
  rw [Bool.and_eq_true] at h
  have h1 := h.1
  rw [beq_iff_eq] at h1
  rw [List.take_succ_cons, List.map_cons] at h1
  have : "template".toList = 't' :: "emplate".toList := by decide
  rw [this] at h1
  exact (List.cons.injEq _ _ _ _ ▸ h1).1

theorem hasTemplateWordAux_false (l : List Char) (h : ∀ c ∈ l, c.toLower ≠ 't') :
    ∀ b, hasTemplateWordAux b l = false := by
  induction l with
  | nil => intro b; rfl
  | cons c rest ih =>
    intro b
    unfold hasTemplateWordAux
    have hs : startsWithTemplateWord (c :: rest) = false := by
      cases hsw : startsWithTemplateWord (c :: rest) with
      | false => rfl
      | true =>
        exact absurd (startsWithTemplateWord_head c rest hsw)
          (h c (List.mem_cons_self c rest))
    rw [hs, ih (fun x hx => h x (List.mem_cons_of_mem c hx)) (isWordChar c)]
    simp

theorem containsTemplateMarker_hex (s : String)
    (h : ∀ c ∈ s.toList, isHexLowerChar c = true) :
    containsTemplateMarker s = false := by
  unfold containsTemplateMarker
  rw [hasBracketMarker_false s.toList
      (fun c hc => (hex_char_props c (h c hc)).2.1),
    hasTemplateWordAux_false s.toList
      (fun c hc => (hex_char_props c (h c hc)).1) false]
  rfl

end Proteus

namespace Proteus

theorem hasBracketMarker_mem (l : List Char) (h : hasBracketMarker l = true) :
    '<' ∈ l := by
  induction l with
  | nil => simp [hasBracketMarker] at h
  | cons a rest ih =>
    unfold hasBracketMarker at h
    rw [Bool.or_eq_true] at h
    rcases h with h | h
    · rw [Bool.and_eq_true, beq_iff_eq] at h
      rw [h.1]
      exact List.mem_cons_self _ _
    · exact List.mem_cons_of_mem a (ih h)

theorem hasTemplateWordAux_mem (l : List Char) :
    ∀ b, hasTemplateWordAux b l = true → ∃ c ∈ l, c.toLower = 't' := by
  induction l with
  | nil => intro b h; simp [hasTemplateWordAux] at h
  | cons c rest ih =>
    intro b h
    unfold hasTemplateWordAux at h
    rw [Bool.or_eq_true] at h
    rcases h with h | h
    · rw [Bool.and_eq_true] at h
      exact ⟨c, List.mem_cons_self c rest, startsWithTemplateWord_head c rest h.2⟩
    · obtain ⟨x, hx, hxt⟩ := ih (isWordChar c) h
      exact ⟨x, List.mem_cons_of_mem c hx, hxt⟩

theorem marker_exists_not_ws (p : String) (h : containsTemplateMarker p = true) :
    ∃ c ∈ p.toList, c.isWhitespace = false := by
  unfold containsTemplateMarker at h
  rw [Bool.or_eq_true] at h
  rcases h with h | h
  · exact ⟨'<', hasBracketMarker_mem _ h, by decide⟩
  · obtain ⟨c, hc, hct⟩ := hasTemplateWordAux_mem _ false h
    refine ⟨c, hc, ?_⟩
    cases hw : c.isWhitespace with
    | false => rfl
    | true =>
      exfalso
      have h4 : ((c = ' ' ∨ c = '\t') ∨ c = '\x0d') ∨ c = '\n' := by
        simpa [Char.isWhitespace] using hw
      rcases h4 with ((rfl | rfl) | rfl) | rfl <;> simp at hct
  
theorem commentsChars_mem (l : List Char) (c : Char) (hc : c ∈ l) :
    c ∈ commentsChars l := by
  unfold commentsChars
  refine List.mem_flatMap.mpr ⟨c, hc, ?_⟩
  split_ifs <;> simp

theorem whitespaceChars_mem (l : List Char) (c : Char) (hc : c ∈ l)
    (hnw : c.isWhitespace = false) : c ∈ whitespaceChars l := by
  unfold whitespaceChars
  refine List.mem_flatMap.mpr ⟨c, hc, ?_⟩
  have : (c == ' ') = false := by
    simp
    intro he
    subst he
    simp [Char.isWhitespace] at hnw
  rw [this]
  simp

theorem strip_ne_of_exists_not_ws (s : String)
    (h : ∃ c ∈ s.toList, c.isWhitespace = false) : pyStrip s ≠ "" := by
  rw [Ne, pyStrip_eq_empty_iff]
  intro hall
  obtain ⟨c, hc, hcw⟩ := h
  rw [hall c hc] at hcw
  simp at hcw

theorem _comments_ok (p s : String) (h : _comments p = .ok s) :
    containsTemplateMarker p = true ∧ s = String.mk (commentsChars p.toList) := by
  simp only [_comments, _ensure_educational_template, bind, Except.bind] at h
  split_ifs at h with hmk
  simp [pure, Except.pure] at h
  exact ⟨hmk, h.symm⟩

theorem _whitespace_ok (p s : String) (h : _whitespace p = .ok s) :
    containsTemplateMarker p = true ∧ s = String.mk (whitespaceChars p.toList) := by
  simp only [_whitespace, _ensure_educational_template, bind, Except.bind] at h
  split_ifs at h with hmk
  simp [pure, Except.pure] at h
  exact ⟨hmk, h.symm⟩

theorem _mixed_ok (p s : String) (h : _mixed p = .ok s) :
    containsTemplateMarker p = true ∧
      s = String.mk (whitespaceChars (commentsChars p.toList)) := by
  simp only [_mixed, bind, Except.bind] at h
  cases he : _ensure_educational_template p with
  | error e => rw [he] at h; simp at h
  | ok u =>
    cases u
    rw [he] at h
    cases hc : _comments p with
    | error e => rw [hc] at h; simp at h
    | ok c =>
      rw [hc] at h
      obtain ⟨hmk, rfl⟩ := _comments_ok p c hc
      obtain ⟨_, hs⟩ := _whitespace_ok _ s h
      exact ⟨hmk, hs⟩

theorem obfuscate_ok_cases (p : String) (m : Option String) (s : String)
    (h : obfuscate_payload (.str p) m = .ok s) :
    containsTemplateMarker p = true ∧
      (s = String.mk (commentsChars p.toList) ∨
       s = String.mk (whitespaceChars p.toList) ∨
       s = String.mk (whitespaceChars (commentsChars p.toList))) := by
  simp only [obfuscate_payload] at h
  split_ifs at h with h1 h2 h3 h4
  · obtain ⟨hmk, hs⟩ := _comments_ok p s h
    exact ⟨hmk, Or.inl hs⟩
  · obtain ⟨hmk, hs⟩ := _whitespace_ok p s h
    exact ⟨hmk, Or.inr (Or.inl hs)⟩
  · obtain ⟨hmk, hs⟩ := _mixed_ok p s h
    exact ⟨hmk, Or.inr (Or.inr hs)⟩

theorem obfuscate_ok_strip_ne (p : String) (m : Option String) (s : String)
    (h : obfuscate_payload (.str p) m = .ok s) : pyStrip s ≠ "" := by
  obtain ⟨hmk, hs⟩ := obfuscate_ok_cases p m s h
  obtain ⟨c, hc, hcw⟩ := marker_exists_not_ws p hmk
  refine strip_ne_of_exists_not_ws s ?_
  rcases hs with rfl | rfl | rfl
  · exact ⟨c, commentsChars_mem _ c hc, hcw⟩
  · exact ⟨c, whitespaceChars_mem _ c hc hcw, hcw⟩
  · exact ⟨c, whitespaceChars_mem _ c (commentsChars_mem _ c hc) hcw, hcw⟩

end Proteus

namespace Proteus
open PayloadPipeline

theorem validate_payload_update (r : PayloadTemplate) (p2 : String)
    (hv : _validate r = .ok ()) (hp : pyStrip p2 ≠ "") :
    _validate { r with payload := p2 } = .ok () := by
  rw [_validate_ok_iff] at hv ⊢
  have hrules : validateModuleRules { r with payload := p2 } = validateModuleRules r := rfl
  exact ⟨hv.1, hv.2.1, hp, hv.2.2.2.1, hv.2.2.2.2.1, hv.2.2.2.2.2.1,
    hrules ▸ hv.2.2.2.2.2.2.1, hv.2.2.2.2.2.2.2⟩

theorem clone_payload_ok (r : PayloadTemplate) (p2 : String)
    (hv : _validate r = .ok ()) (hp : pyStrip p2 ≠ "") :
    clone_with_updates r { payload := some p2 } = .ok { r with payload := p2 } := by
  have happ : applyUpdates r { payload := some p2 } = { r with payload := p2 } := rfl
  rw [clone_with_updates, happ, construct_ok_iff]
  exact ⟨validate_payload_update r p2 hv hp, rfl⟩

theorem validate_add_encoding (r : PayloadTemplate) (n : String) :
    _validate (add_encoding r n) = _validate r := rfl

theorem validate_add_obfuscation (r : PayloadTemplate) (n : String) :
    _validate (add_obfuscation r n) = _validate r := rfl

theorem apply_encoding_ok_valid (items : List PayloadTemplate) (method : String)
    (out : List PayloadTemplate)
    (h : apply_encoding_to_all items method = .ok out) :
    ∀ r ∈ out, _validate r = .ok () := by
  induction items generalizing out with
  | nil =>
    unfold apply_encoding_to_all at h
    simp at h
    subst h
    intro r hr
    simp at hr
  | cons item rest ih =>
    unfold apply_encoding_to_all at h
    cases h1 : encode_payload (.str item.payload) (some method) with
    | error e =>
      rw [h1] at h
      simp [bind, Except.bind, throw, throwThe, MonadExceptOf.throw] at h
    | ok s =>
      rw [h1] at h
      simp only [bind, Except.bind, pure, Except.pure] at h
      cases h2 : clone_with_updates item { payload := some s } with
      | error e => rw [h2] at h; simp at h
      | ok cloned =>
        rw [h2] at h
        cases h3 : apply_encoding_to_all rest method with
        | error e => rw [h3] at h; simp at h
        | ok out2 =>
          rw [h3] at h
          simp at h
          subst h
          intro r hr
          rcases List.mem_cons.mp hr with hr | hr
          · subst hr
            rw [validate_add_encoding]
            rw [clone_with_updates, construct_ok_iff] at h2
            rw [h2.2]
            exact h2.1
          · exact ih out2 h3 r hr

theorem apply_obfuscation_ok_valid (items : List PayloadTemplate) (technique : String)
    (out : List PayloadTemplate)
    (h : apply_obfuscation_to_all items technique = .ok out) :
    ∀ r ∈ out, _validate r = .ok () := by
  induction items generalizing out with
  | nil =>
    unfold apply_obfuscation_to_all at h
    simp at h
    subst h
    intro r hr
    simp at hr
  | cons item rest ih =>
    unfold apply_obfuscation_to_all at h
    cases h1 : obfuscate_payload (.str item.payload) (some technique) with
    | error e =>
      rw [h1] at h
      simp [bind, Except.bind, throw, throwThe, MonadExceptOf.throw] at h
    | ok s =>
      rw [h1] at h
      simp only [bind, Except.bind, pure, Except.pure] at h
      cases h2 : clone_with_updates item { payload := some s } with
      | error e => rw [h2] at h; simp at h
      | ok cloned =>
        rw [h2] at h
        cases h3 : apply_obfuscation_to_all rest technique with
        | error e => rw [h3] at h; simp at h
        | ok out2 =>
          rw [h3] at h
          simp at h
          subst h
          intro r hr
          rcases List.mem_cons.mp hr with hr | hr
          · subst hr
            rw [validate_add_obfuscation]
            rw [clone_with_updates, construct_ok_iff] at h2
            rw [h2.2]
            exact h2.1
          · exact ih out2 h3 r hr

end Proteus

namespace Proteus
open PayloadPipeline

theorem apply_encoding_error_shape (items : List PayloadTemplate) (method : String)
    (e : PyErr) (hvalid : ∀ r ∈ items, _validate r = .ok ())
    (h : apply_encoding_to_all items method = .error e) :
    ∃ u, e = .pipeline (.encodingFailed method) u := by
  induction items generalizing e with
  | nil => simp [apply_encoding_to_all] at h
  | cons item rest ih =>
    unfold apply_encoding_to_all at h
    cases h1 : encode_payload (.str item.payload) (some method) with
    | error u =>
      rw [h1] at h
      simp [bind, Except.bind, throw, throwThe, MonadExceptOf.throw] at h
      exact ⟨u, h.symm⟩
    | ok s =>
      rw [h1] at h
      simp only [bind, Except.bind, pure, Except.pure] at h
      rw [clone_payload_ok item s (hvalid item (List.mem_cons_self item rest))
        (encode_ok_strip_ne item.payload (some method) s h1)] at h
      cases h3 : apply_encoding_to_all rest method with
      | error e2 =>
        rw [h3] at h
        simp at h
        subst h
        exact ih e2 (fun r hr => hvalid r (List.mem_cons_of_mem item hr)) h3
      | ok out2 => rw [h3] at h; simp at h
  
theorem apply_obfuscation_error_shape (items : List PayloadTemplate) (technique : String)
    (e : PyErr) (hvalid : ∀ r ∈ items, _validate r = .ok ())
    (h : apply_obfuscation_to_all items technique = .error e) :
    ∃ u, e = .pipeline (.obfuscationFailed technique) u := by
  induction items generalizing e with
  | nil => simp [apply_obfuscation_to_all] at h
  | cons item rest ih =>
    unfold apply_obfuscation_to_all at h
    cases h1 : obfuscate_payload (.str item.payload) (some technique) with
    | error u =>
      rw [h1] at h
      simp [bind, Except.bind, throw, throwThe, MonadExceptOf.throw] at h
      exact ⟨u, h.symm⟩
    | ok s =>
      rw [h1] at h
      simp only [bind, Except.bind, pure, Except.pure] at h
      rw [clone_payload_ok item s (hvalid item (List.mem_cons_self item rest))
        (obfuscate_ok_strip_ne item.payload (some technique) s h1)] at h
      cases h3 : apply_obfuscation_to_all rest technique with
      | error e2 =>
        rw [h3] at h
        simp at h
        subst h
        exact ih e2 (fun r hr => hvalid r (List.mem_cons_of_mem item hr)) h3
      | ok out2 => rw [h3] at h; simp at h

theorem registry_generate_ok_valid (reg : Registry) (m : String)
    (db os ctx : Option String) (items : List PayloadTemplate)
    (h : ModuleRegistry.generate reg m db os ctx = .ok items) :
    ∀ r ∈ items, _validate r = .ok () := by
  simp only [ModuleRegistry.generate, ModuleRegistry.get_spec, bind, Except.bind,
    throw, throwThe, MonadExceptOf.throw] at h
  cases hsel : ModuleRegistry.validate_selectors reg m db os ctx with
  | error e => rw [hsel] at h; simp at h
  | ok u =>
    cases u
    rw [hsel] at h
    cases hlook : List.lookup m reg with
    | none => rw [hlook] at h; simp at h
    | some spec =>
      rw [hlook] at h
      simp only at h
      split_ifs at h
      all_goals
        first
        | (cases hgen : spec.generator db none none with
           | error e => rw [hgen] at h; simp at h
           | ok res =>
             rw [hgen] at h
             cases res with
             | notList => simp at h
             | list its => exact checkItems_ok_valid m its 0 items h)
        | (cases hgen : spec.generator none os none with
           | error e => rw [hgen] at h; simp at h
           | ok res =>
             rw [hgen] at h
             cases res with
             | notList => simp at h
             | list its => exact checkItems_ok_valid m its 0 items h)
        | (cases hgen : spec.generator none none ctx with
           | error e => rw [hgen] at h; simp at h
           | ok res =>
             rw [hgen] at h
             cases res with
             | notList => simp at h
             | list its => exact checkItems_ok_valid m its 0 items h)

end Proteus

namespace Proteus
open PayloadPipeline

theorem json_validate_error_kind (items : List ExportItem) (i : Nat) (e : PyErr)
    (h : json_validate_items i items = .error e) : ∃ k, e = .jsonExport k := by
  induction items generalizing i with
  | nil => simp [json_validate_items] at h
  | cons it rest ih =>
    cases it with
    | notRecord =>
      simp [json_validate_items] at h
      exact ⟨_, h.symm⟩
    | record r =>
      simp only [json_validate_items] at h
      split_ifs at h with hd
      · simp at h
        exact ⟨_, h.symm⟩
      · cases hrec : json_validate_items (i + 1) rest with
        | error e2 =>
          rw [hrec] at h
          simp [Except.map] at h
          subst h
          exact ih (i + 1) hrec
        | ok rs => rw [hrec] at h; simp [Except.map] at h

theorem txt_validate_error_kind (items : List ExportItem) (i : Nat) (e : PyErr)
    (h : txt_validate_items i items = .error e) : ∃ k, e = .txtExport k := by
  induction items generalizing i with
  | nil => simp [txt_validate_items] at h
  | cons it rest ih =>
    cases it with
    | notRecord =>
      simp [txt_validate_items] at h
      exact ⟨_, h.symm⟩
    | record r =>
      simp only [txt_validate_items] at h
      split_ifs at h with hd
      · simp at h
        exact ⟨_, h.symm⟩
      · cases hrec : txt_validate_items (i + 1) rest with
        | error e2 =>
          rw [hrec] at h
          simp [Except.map] at h
          subst h
          exact ih (i + 1) hrec
        | ok rs => rw [hrec] at h; simp [Except.map] at h

theorem export_json_error_kind (items : List ExportItem) (meta : Option (List String))
    (now : String) (fs : FS) (o : WriteOutcome) (fs' : FS) (e : PyErr)
    (h : export_json items meta now fs o = (fs', .error e)) : ∃ k, e = .jsonExport k := by
  unfold export_json at h
  cases hv : json_validate_items 0 items with
  | error e2 =>
    rw [hv] at h
    simp at h
    rw [← h.2]
    exact json_validate_error_kind items 0 e2 hv
  | ok validated =>
    rw [hv] at h
    simp only at h
    split_ifs at h with hc
    · simp at h
      exact ⟨_, h.2.symm⟩
    · unfold _atomic_write_text at h
      cases o <;> simp at h <;> exact ⟨_, h.2.symm⟩

theorem export_txt_error_kind (items : List ExportItem) (meta : Option (List String))
    (now : String) (fs : FS) (o : WriteOutcome) (fs' : FS) (e : PyErr)
    (h : export_txt items meta now fs o = (fs', .error e)) : ∃ k, e = .txtExport k := by
  unfold export_txt at h
  cases hv : txt_validate_items 0 items with
  | error e2 =>
    rw [hv] at h
    simp at h
    rw [← h.2]
    exact txt_validate_error_kind items 0 e2 hv
  | ok validated =>
    rw [hv] at h
    simp only at h
    unfold _atomic_write_text at h
    cases o <;> simp at h <;> exact ⟨_, h.2.symm⟩

end Proteus

namespace Proteus
open PayloadPipeline

theorem pipeline_generate_error_shape (m : String) (db os ctx : Option String) (e : PyErr)
    (h : PayloadPipeline.generate m db os ctx = .error e) :
    ∃ u, ModuleRegistry.generate PROTEUS_REGISTRY m db os ctx = .error u ∧
      e = .pipeline .generationFailed u := by
  unfold PayloadPipeline.generate at h
  cases hg : ModuleRegistry.generate PROTEUS_REGISTRY m db os ctx with
  | error u =>
    rw [hg] at h
    simp at h
    exact ⟨u, rfl, h.symm⟩
  | ok items => rw [hg] at h; simp at h

theorem pipeline_generate_ok (m : String) (db os ctx : Option String)
    (items : List PayloadTemplate)
    (h : PayloadPipeline.generate m db os ctx = .ok items) :
    ModuleRegistry.generate PROTEUS_REGISTRY m db os ctx = .ok items := by
  unfold PayloadPipeline.generate at h
  cases hg : ModuleRegistry.generate PROTEUS_REGISTRY m db os ctx with
  | error u => rw [hg] at h; simp at h
  | ok items2 => rw [hg] at h; simp at h; rw [h]

theorem run_error_classified (a : RunArgs) (now : String) (fs : FS) (o : WriteOutcome)
    (e : PyErr) (h : (PayloadPipeline.run a now fs o).2 = .error e) :
    isPipelineError e = true ∨ isExportError e = true := by
  unfold PayloadPipeline.run at h
  cases hg : PayloadPipeline.generate a.module a.db_type a.os_type a.context with
  | error e0 =>
    rw [hg] at h
    simp at h
    subst h
    obtain ⟨u, _, rfl⟩ := pipeline_generate_error_shape _ _ _ _ e0 hg
    left; rfl
  | ok items0 =>
    rw [hg] at h
    have hval0 : ∀ r ∈ items0, _validate r = .ok () :=
      registry_generate_ok_valid _ _ _ _ _ _ (pipeline_generate_ok _ _ _ _ _ hg)
    simp only at h
    cases henc : (if optTruthy a.encoding then apply_encoding_to_all items0 (a.encoding.getD "")
        else .ok items0) with
    | error e1 =>
      rw [henc] at h
      simp at h
      subst h
      split_ifs at henc with ht
      obtain ⟨u, rfl⟩ := apply_encoding_error_shape items0 _ e1 hval0 henc
      left; rfl
    | ok items1 =>
      rw [henc] at h
      have hval1 : ∀ r ∈ items1, _validate r = .ok () := by
        split_ifs at henc with ht
        · exact apply_encoding_ok_valid items0 _ items1 henc
        · simp at henc; subst henc; exact hval0
      simp only at h
      cases hobf : (if optTruthy a.obfuscation then
          apply_obfuscation_to_all items1 (a.obfuscation.getD "") else .ok items1) with
      | error e2 =>
        rw [hobf] at h
        simp at h
        subst h
        split_ifs at hobf with ht
        obtain ⟨u, rfl⟩ := apply_obfuscation_error_shape items1 _ e2 hval1 hobf
        left; rfl
      | ok items2 =>
        rw [hobf] at h
        simp only at h
        by_cases hef : optTruthy a.export_format = true
        · rw [if_pos hef] at h
          by_cases hop : optTruthy a.output_path = true
          · rw [if_neg (by simp [hop])] at h
            by_cases hjson : a.export_format = some "json"
            · rw [if_pos hjson] at h
              cases hex : export_json (items2.map .record) a.meta now fs o with
              | mk fs2 res =>
                rw [hex] at h
                cases res with
                | ok u => simp at h
                | error e3 =>
                  simp at h
                  subst h
                  obtain ⟨k, rfl⟩ := export_json_error_kind _ _ _ _ _ _ _ hex
                  right; rfl
            · rw [if_neg hjson] at h
              by_cases htxt : a.export_format = some "txt"
              · rw [if_pos htxt] at h
                cases hex : export_txt (items2.map .record) a.meta now fs o with
                | mk fs2 res =>
                  rw [hex] at h
                  cases res with
                  | ok u => simp at h
                  | error e3 =>
                    simp at h
                    subst h
                    obtain ⟨k, rfl⟩ := export_txt_error_kind _ _ _ _ _ _ _ hex
                    right; rfl
              · rw [if_neg htxt] at h
                simp at h
                subst h
                left; rfl
          · rw [if_pos (by simpa using hop)] at h
            simp at h
            subst h
            left; rfl
        · rw [if_neg hef] at h
          simp at h

end Proteus

namespace Proteus

theorem normalize_context_range (ctx : Option String) (c : Option String)
    (h : _normalize_context ctx = .ok c) :
    c = none ∨ c = some "html" ∨ c = some "attr" ∨ c = some "js" := by
  unfold _normalize_context at h
  cases ctx with
  | none => simp at h; subst h; left; rfl
  | some s =>
    simp only at h
    split_ifs at h with h1 h2
    · simp at h; subst h; left; rfl
    · simp only [List.mem_cons, List.mem_singleton] at h2
      simp at h
      rcases h2 with h2 | h2 | h2 | h2
      · rw [h2] at h; rw [← h]; right; left; rfl
      · rw [h2] at h; rw [← h]; right; right; left; rfl
      · rw [h2] at h; rw [← h]; right; right; right; rfl
      · simp at h2

theorem checkItems_map_ok_eq (m : String) (rs : List PayloadTemplate) (i : Nat)
    (out : List PayloadTemplate)
    (h : ModuleRegistry.checkItems m i (rs.map .template) = .ok out) : out = rs := by
  induction rs generalizing i out with
  | nil =>
    simp [ModuleRegistry.checkItems] at h
    exact h
  | cons r0 rest ih =>
    simp only [List.map_cons, ModuleRegistry.checkItems] at h
    cases hv : _validate r0 with
    | error e =>
      obtain ⟨k, rfl⟩ := _validate_error_validation r0 e hv
      rw [hv] at h
      simp at h
    | ok u =>
      cases u
      rw [hv] at h
      cases hrec : ModuleRegistry.checkItems m (i + 1) (rest.map .template) with
      | error e => rw [hrec] at h; simp [Except.map] at h
      | ok out2 =>
        rw [hrec] at h
        simp [Except.map] at h
        rw [ih (i + 1) out2 hrec] at h
        exact h.symm

end Proteus

namespace Proteus

theorem proteus_generate_ok_nonempty (m : String) (db os ctx : Option String)
    (items : List PayloadTemplate)
    (h : ModuleRegistry.generate PROTEUS_REGISTRY m db os ctx = .ok items) :
    items ≠ [] := by
  simp only [ModuleRegistry.generate, ModuleRegistry.get_spec, bind, Except.bind,
    throw, throwThe, MonadExceptOf.throw] at h
  cases hsel : ModuleRegistry.validate_selectors PROTEUS_REGISTRY m db os ctx with
  | error e => rw [hsel] at h; simp at h
  | ok u =>
    cases u
    rw [hsel] at h
    by_cases hx : m = "xss"
    · subst hx
      have hlook : List.lookup "xss" PROTEUS_REGISTRY =
          some { name := "xss", generator := xssGeneratorFn } := rfl
      rw [hlook] at h
      simp only at h
      cases hn : _normalize_context ctx with
      | error e =>
        rw [show xssGeneratorFn none none ctx = .error e by
          simp [xssGeneratorFn, bind, Except.bind, hn]] at h
        simp at h
      | ok c =>
        rw [show xssGeneratorFn none none ctx = .ok (.list ((xssItems c).map .template)) by
          simp [xssGeneratorFn, bind, Except.bind, pure, Except.pure, hn]] at h
        simp only at h
        have := checkItems_map_ok_eq "xss" (xssItems c) 0 items h
        subst this
        rcases normalize_context_range ctx c hn with rfl | rfl | rfl | rfl <;> decide
    · by_cases hs : m = "sqli"
      · subst hs
        have hlook : List.lookup "sqli" PROTEUS_REGISTRY =
            some { name := "sqli", generator := sqliGeneratorFn, requires_db := true } := rfl
        rw [hlook] at h
        simp only at h
        cases hn : _normalize_db db with
        | error e =>
          rw [show sqliGeneratorFn db none none = .error e by
            simp [sqliGeneratorFn, bind, Except.bind, hn]] at h
          simp at h
        | ok dbv =>
          rw [show sqliGeneratorFn db none none =
              .ok (.list ((sqliTemplates.map (sqliItem dbv)).map .template)) by
            simp [sqliGeneratorFn, bind, Except.bind, pure, Except.pure, hn]] at h
          simp only at h
          have := checkItems_map_ok_eq "sqli" (sqliTemplates.map (sqliItem dbv)) 0 items h
          subst this
          simp [sqliTemplates]
      · by_cases hc : m = "cmd"
        · subst hc
          have hlook : List.lookup "cmd" PROTEUS_REGISTRY =
              some { name := "cmd", generator := cmdGeneratorFn, requires_os := true } := rfl
          rw [hlook] at h
          simp only at h
          cases hn : _normalize_os os with
          | error e =>
            rw [show cmdGeneratorFn none os none = .error e by
              simp [cmdGeneratorFn, bind, Except.bind, hn]] at h
            simp at h
          | ok osv =>
            rw [show cmdGeneratorFn none os none =
                .ok (.list ((cmdTemplates.map (cmdItem osv)).map .template)) by
              simp [cmdGeneratorFn, bind, Except.bind, pure, Except.pure, hn]] at h
            simp only at h
            have := checkItems_map_ok_eq "cmd" (cmdTemplates.map (cmdItem osv)) 0 items h
            subst this
            simp [cmdTemplates]
        · have b1 : (m == "xss") = false := by simp [hx]
          have b2 : (m == "sqli") = false := by simp [hs]
          have b3 : (m == "cmd") = false := by simp [hc]
          have hlook : List.lookup m PROTEUS_REGISTRY = none := by
            simp [PROTEUS_REGISTRY, List.lookup, b1, b2, b3]
          rw [hlook] at h
          simp at h

end Proteus

namespace Proteus
open PayloadPipeline

theorem encode_hex_eval (p : String) (hp : pyStrip p ≠ "") :
    encode_payload (.str p) (some "hex") = .ok (_hex_encode p) := by
  have h1 : pyNormToken (some "hex") = "hex" := by decide
  simp [encode_payload, hp, h1]

theorem apply_encoding_hex (items : List PayloadTemplate)
    (hvalid : ∀ r ∈ items, _validate r = .ok ()) :
    ∃ out, apply_encoding_to_all items "hex" = .ok out ∧ out.length = items.length ∧
      ∀ r ∈ out, r.payload ≠ "" ∧ ∀ c ∈ r.payload.toList, isHexLowerChar c = true := by
  induction items with
  | nil => exact ⟨[], rfl, rfl, by simp⟩
  | cons item rest ih =>
    obtain ⟨out2, hout2, hlen2, hprops2⟩ :=
      ih (fun r hr => hvalid r (List.mem_cons_of_mem item hr))
    have hv0 := hvalid item (List.mem_cons_self item rest)
    have hstrip : pyStrip item.payload ≠ "" := ((_validate_ok_iff item).mp hv0).2.2.1
    have hpne : item.payload ≠ "" := by
      intro he
      apply hstrip
      rw [he]
      rfl
    have hhexstrip : pyStrip (_hex_encode item.payload) ≠ "" :=
      strip_ne_of_all_not_ws _ (hex_encode_props item.payload hpne).1
        (hex_encode_props item.payload hpne).2
    refine ⟨add_encoding { item with payload := _hex_encode item.payload } "hex" :: out2,
      ?_, by simp [hlen2], ?_⟩
    · unfold apply_encoding_to_all
      rw [encode_hex_eval item.payload hstrip]
      simp only [bind, Except.bind, pure, Except.pure]
      rw [clone_payload_ok item _ hv0 hhexstrip, hout2]
    · intro r hr
      rcases List.mem_cons.mp hr with hr | hr
      · subst hr
        constructor
        · exact hex_encode_ne_empty item.payload hpne
        · intro c hc
          exact hex_encode_chars item.payload c hc
      · exact hprops2 r hr

theorem obfuscate_hex_fails (p : String) (t : String) (hp : p ≠ "")
    (hchars : ∀ c ∈ p.toList, isHexLowerChar c = true) :
    ∃ u, obfuscate_payload (.str p) (some t) = .error (.obfuscation u) := by
  by_cases hm : pyNormToken (some t) ∈ ["comments", "whitespace", "mixed"]
  · exact obfuscate_no_marker_fails p t (containsTemplateMarker_hex p hchars) hm
  · have h1 : ¬ pyNormToken (some t) = "comments" := fun e => hm (by simp [e])
    have h2 : ¬ pyNormToken (some t) = "whitespace" := fun e => hm (by simp [e])
    have h3 : ¬ pyNormToken (some t) = "mixed" := fun e => hm (by simp [e])
    refine ⟨.unsupportedMode t, ?_⟩
    simp [obfuscate_payload, hp, h1, h2, h3]

theorem apply_obfuscation_head_error (r : PayloadTemplate) (rest : List PayloadTemplate)
    (t : String) (u : PyErr)
    (h : obfuscate_payload (.str r.payload) (some t) = .error u) :
    apply_obfuscation_to_all (r :: rest) t =
      .error (.pipeline (.obfuscationFailed t) u) := by
  unfold apply_obfuscation_to_all
  rw [h]
  simp [bind, Except.bind, throw, throwThe, MonadExceptOf.throw]

end Proteus

namespace Proteus
open PayloadPipeline

theorem hexThenObf_fails (s mode : String) (hs : pyStrip s ≠ "")
    (hm : pyNormToken (some mode) ∈ ["comments", "whitespace", "mixed"]) :
    ∃ k, hexThenObfuscate s mode = .error (.obfuscation k) := by
  unfold hexThenObfuscate
  obtain ⟨k, hk⟩ := obfuscate_no_marker_fails (_hex_encode s) mode
    (containsTemplateMarker_hex _ (hex_encode_chars s)) hm
  refine ⟨k, ?_⟩
  simp only [bind, Except.bind, encode_hex_eval s hs]
  exact hk

theorem run_hex_then_obfuscation_error (a : RunArgs) (now : String) (fs : FS) (o : WriteOutcome)
    (he : a.encoding = some "hex") (ho : optTruthy a.obfuscation = true) :
    ∃ e, (PayloadPipeline.run a now fs o).2 = .error e ∧ isPipelineError e = true := by
  unfold PayloadPipeline.run
  cases hg : PayloadPipeline.generate a.module a.db_type a.os_type a.context with
  | error e0 =>
    obtain ⟨u, _, hshape⟩ := pipeline_generate_error_shape _ _ _ _ e0 hg
    exact ⟨e0, by simp, by rw [hshape]; rfl⟩
  | ok items0 =>
    have hrg := pipeline_generate_ok _ _ _ _ _ hg
    have hvalid := registry_generate_ok_valid _ _ _ _ _ _ hrg
    have hne := proteus_generate_ok_nonempty _ _ _ _ _ hrg
    have htr : optTruthy a.encoding = true := by rw [he]; decide
    obtain ⟨out, hout, hlen, hprops⟩ := apply_encoding_hex items0 hvalid
    cases hcout : out with
    | nil =>
      exfalso
      rw [hcout] at hlen
      exact hne (List.length_eq_zero.mp hlen.symm)
    | cons r1 rest =>
      have hp1 := hprops r1 (by rw [hcout]; exact List.mem_cons_self r1 rest)
      obtain ⟨u, hu⟩ := obfuscate_hex_fails r1.payload (a.obfuscation.getD "")
        hp1.1 hp1.2
      refine ⟨.pipeline (.obfuscationFailed (a.obfuscation.getD "")) (.obfuscation u),
        ?_, rfl⟩
      rw [he] at htr ⊢
      simp only [htr, if_true, Option.getD_some, hout]
      rw [hcout]
      simp only [ho, if_true]
      rw [apply_obfuscation_head_error r1 rest _ _ hu]



open PayloadPipeline

/-- **C3 counterexample.** The claim says every failure category — export
errors included — escapes `PayloadPipeline.run` as a `PipelineError`. It
does not: a reserved meta key makes `export_json` raise
`JSONExportError`, and `run` re-raises it unwrapped, so the error leaving
`run` is not a `PipelineError`. -/
theorem C3_export_error_escapes_unwrapped :
    (PayloadPipeline.run { module := "xss", context := some "html", export_format := some "json", output_path := some "out.json", meta := some ["schema"] } "2024-01-01T00:00:00+00:00" { dest := none, tmp := none } .ok).2 = .error (.jsonExport (.metaReservedKeys ["schema"])) ∧
      isPipelineError (.jsonExport (.metaReservedKeys ["schema"])) = false :=
  ⟨rfl, rfl⟩

/-- **C3 (amended).** Failures from generation, encoding and obfuscation
do propagate out of the pipeline as `PipelineError`s preserving the
original cause: registry errors are wrapped as `generation failed` with
the registry error as cause, and every transform-stage failure on valid
records is a `PipelineError` with the stage message and a preserved
cause; every error leaving `PayloadPipeline.run` is either a
`PipelineError` or one of the two exporter error types (the exporter
errors escape unwrapped). -/
theorem C3_failures_wrapped_except_export :
    (∀ (m : String) (db os ctx : Option String) (e : PyErr),
        ModuleRegistry.generate PROTEUS_REGISTRY m db os ctx = .error e →
        PayloadPipeline.generate m db os ctx = .error (.pipeline .generationFailed e)) ∧
    (∀ (items : List PayloadTemplate) (method : String) (e : PyErr),
        (∀ r ∈ items, _validate r = .ok ()) →
        apply_encoding_to_all items method = .error e →
        ∃ u, e = .pipeline (.encodingFailed method) u) ∧
    (∀ (items : List PayloadTemplate) (technique : String) (e : PyErr),
        (∀ r ∈ items, _validate r = .ok ()) →
        apply_obfuscation_to_all items technique = .error e →
        ∃ u, e = .pipeline (.obfuscationFailed technique) u) ∧
    (∀ (a : RunArgs) (now : String) (fs : FS) (o : WriteOutcome) (e : PyErr),
        (PayloadPipeline.run a now fs o).2 = .error e →
        isPipelineError e = true ∨ isExportError e = true) := by
  refine ⟨?_, ?_, ?_, ?_⟩
  · intro m db os ctx e h
    unfold PayloadPipeline.generate
    rw [h]
  · intro items method e hv h
    exact apply_encoding_error_shape items method e hv h
  · intro items technique e hv h
    exact apply_obfuscation_error_shape items technique e hv h
  · intro a now fs o e h
    exact run_error_classified a now fs o e h

/-- Witness for C3: a run for `sqli` without a db type fails, and the
escaping error is classified as a `PipelineError`. -/
theorem C3_failures_wrapped_except_export_witness :
    isPipelineError (.pipeline .generationFailed (.registry (.requiresDb "sqli"))) = true ∨
      isExportError (.pipeline .generationFailed (.registry (.requiresDb "sqli"))) = true :=
  C3_failures_wrapped_except_export.2.2.2 { module := "sqli" } "t" { dest := none, tmp := none } .ok
    (.pipeline .generationFailed (.registry (.requiresDb "sqli"))) rfl

/-- **C10 counterexample.** The claim quantifies over every non-empty
string, but on a whitespace-only input the composite fails earlier, in
the encoder: `encode_payload` strips the payload, finds it empty and
raises an `EncodingError`, not an `ObfuscationError`. -/
theorem C10_whitespace_input_counterexample :
    hexThenObfuscate " " "mixed" = .error (.encoding .emptyPayload) ∧
      isObfuscationError (.encoding .emptyPayload) = false :=
  ⟨rfl, rfl⟩

/-- **C10 (amended).** For every string that is non-empty after trimming
and every supported obfuscation mode, obfuscating the hex encoding of the
string raises an `ObfuscationError`: hex output consists only of
lowercase hexadecimal digits, so it can never contain the required
`<<...>>` or `TEMPLATE` marker; and every pipeline run requesting
`encoding="hex"` together with a truthy obfuscation fails with a
`PipelineError`. -/
theorem C10_hex_blocks_obfuscation :
    (∀ (s : String) (c : Char), c ∈ (_hex_encode s).toList → isHexLowerChar c = true) ∧
    (∀ s : String, containsTemplateMarker (_hex_encode s) = false) ∧
    (∀ (s mode : String), pyStrip s ≠ "" →
        pyNormToken (some mode) ∈ ["comments", "whitespace", "mixed"] →
        ∃ k, hexThenObfuscate s mode = .error (.obfuscation k)) ∧
    (∀ (a : RunArgs) (now : String) (fs : FS) (o : WriteOutcome),
        a.encoding = some "hex" → optTruthy a.obfuscation = true →
        ∃ e, (PayloadPipeline.run a now fs o).2 = .error e ∧ isPipelineError e = true) := by
  refine ⟨hex_encode_chars, ?_, hexThenObf_fails, run_hex_then_obfuscation_error⟩
  intro s
  exact containsTemplateMarker_hex _ (hex_encode_chars s)

/-- Witness for C10: hex-encoding `"TEST"` and then obfuscating with mode
`"mixed"` raises an `ObfuscationError`. -/
theorem C10_hex_blocks_obfuscation_witness :
    ∃ k, hexThenObfuscate "TEST" "mixed" = .error (.obfuscation k) :=
  C10_hex_blocks_obfuscation.2.2.1 "TEST" "mixed" (by decide) (by decide)

end Proteus
